import Mathlib

/-!
Verification of the viveno-ai creative-suite front end.

The TypeScript sources are shallowly embedded: JavaScript strings become
`List Char`, the browser storage and the external generation service become
explicit parameters (option values and outcome oracles), and the React state
updates of the relevant handlers become pure state-passing functions.
-/

namespace Viveno

/-! ## JavaScript string model -/

/-- JavaScript strings are modelled as lists of characters. -/
abbrev JStr := List Char

/-- Turn a Lean string literal into the character-list model. -/
def str (s : String) : JStr := s.data

/-- The whitespace characters relevant to the sources (space, tab, newline,
carriage return); these are the only whitespace characters the embedded
string literals and templates can produce. -/
def ws (c : Char) : Bool := c = ' ' || c = '\t' || c = '\n' || c = '\r'

/-- Model of `String.prototype.trimStart`. -/
def trimLeft (s : JStr) : JStr := s.dropWhile ws

/-- Model of `String.prototype.trimEnd`. -/
def trimRight (s : JStr) : JStr := (s.reverse.dropWhile ws).reverse

/-- Model of `String.prototype.trim`. -/
def trim (s : JStr) : JStr := trimRight (trimLeft s)

/-- Worker for `collapseWS`: the flag records whether a whitespace run is
pending (a single `' '` is emitted for it before the next non-space
character, or at the end of the string). -/
def collapseGo : Bool → JStr → JStr
  | pending, [] => if pending then [' '] else []
  | pending, c :: rest =>
    if ws c then collapseGo true rest
    else if pending then ' ' :: c :: collapseGo false rest
    else c :: collapseGo false rest

/-- Model of `s.replace(/\s+/g, ' ')`: every maximal run of whitespace is
replaced by one space. -/
def collapseWS (s : JStr) : JStr := collapseGo false s

/-- Model of `String.prototype.replace` with a string pattern: only the
first occurrence of `pat` is replaced by `repl`. -/
def jsReplaceFirst (pat repl : JStr) : JStr → JStr
  | [] => if pat.isEmpty then repl else []
  | c :: rest =>
    if pat.isPrefixOf (c :: rest) then repl ++ (c :: rest).drop pat.length
    else c :: jsReplaceFirst pat repl rest

/-- `containsSeg pat s` holds when `pat` occurs as a contiguous segment of
`s` (the model of `String.prototype.includes`). -/
def containsSeg (pat : JStr) : JStr → Bool
  | [] => pat.isEmpty
  | c :: rest => pat.isPrefixOf (c :: rest) || containsSeg pat rest

/-- `allWS s` holds when every character of `s` is whitespace. -/
def allWS (s : JStr) : Bool := s.all ws

/-- `endsNonWS s` holds when `s` is non-empty and its last character is not
whitespace. -/
def endsNonWS : JStr → Bool
  | [] => false
  | [c] => !ws c
  | _ :: c :: rest => endsNonWS (c :: rest)

/-- `noDoubleSpace s` holds when no two adjacent characters of `s` are both
spaces. -/
def noDoubleSpace : JStr → Bool
  | [] => true
  | [_] => true
  | a :: b :: rest => !(a = ' ' && b = ' ') && noDoubleSpace (b :: rest)

/-! ## Domain types (from `types.ts`) -/

inductive Language | english | kinyarwanda
deriving DecidableEq

inductive AspectRatio | r1x1 | r16x9 | r9x16 | r4x3 | r3x4
deriving DecidableEq

inductive VideoFPS | f24 | f30 | f60
deriving DecidableEq

inductive ImageStyle | none | photorealistic | fantasy | anime | render3d | pixelArt
deriving DecidableEq

inductive VideoStyle | none | cinematic | animated | hyperrealistic | vintage
deriving DecidableEq

inductive SoundFXStyle | none | realistic | cartoon | cinematic
deriving DecidableEq

inductive AudioMood | none | epic | ambient | lofi | cinematicTension
deriving DecidableEq

inductive VideoDuration | short | medium | long | oneMinute | threeMinute
deriving DecidableEq

inductive CameraMovement | none | pan | zoomIn | zoomOut | droneShot | static
deriving DecidableEq

inductive VideoQuality | standard | high
deriving DecidableEq

inductive VideoFraming | none | closeUp | mediumShot | longShot
deriving DecidableEq

inductive AIPersona
  | none | photographer | illustrator | cinematographer | vfxArtist | conceptArtist
  | wildlifePhotographer | sciFiArtist | foodPhotographer | architecturalDesigner
deriving DecidableEq

inductive Intensity | subtle | balanced | strong
deriving DecidableEq

inductive SubscriptionTier | free | silver | golden | diamond
deriving DecidableEq

inductive BatchSize | one | two | three | four
deriving DecidableEq

/-- The `'IMAGE' | 'VIDEO'` union used by `LibraryItem.type`. -/
inductive MediaType | image | video
deriving DecidableEq

inductive ToastType | success | error | info
deriving DecidableEq

/-- The string value of each `AspectRatio` literal. -/
def aspectRatioStr : AspectRatio → JStr
  | .r1x1 => str "1:1"
  | .r16x9 => str "16:9"
  | .r9x16 => str "9:16"
  | .r4x3 => str "4:3"
  | .r3x4 => str "3:4"

/-- The string interpolation of each `VideoFPS` number literal. -/
def videoFPSStr : VideoFPS → JStr
  | .f24 => str "24"
  | .f30 => str "30"
  | .f60 => str "60"

def videoStyleStr : VideoStyle → JStr
  | .none => str "none"
  | .cinematic => str "cinematic"
  | .animated => str "animated"
  | .hyperrealistic => str "hyperrealistic"
  | .vintage => str "vintage"

def cameraMovementStr : CameraMovement → JStr
  | .none => str "none"
  | .pan => str "pan"
  | .zoomIn => str "zoom-in"
  | .zoomOut => str "zoom-out"
  | .droneShot => str "drone-shot"
  | .static => str "static"

def videoFramingStr : VideoFraming → JStr
  | .none => str "none"
  | .closeUp => str "close-up"
  | .mediumShot => str "medium-shot"
  | .longShot => str "long-shot"

def audioMoodStr : AudioMood → JStr
  | .none => str "none"
  | .epic => str "epic"
  | .ambient => str "ambient"
  | .lofi => str "lofi"
  | .cinematicTension => str "cinematic-tension"

def tierStr : SubscriptionTier → JStr
  | .free => str "free"
  | .silver => str "silver"
  | .golden => str "golden"
  | .diamond => str "diamond"

/-- `GenerationSettings` from `types.ts`; optional fields become `Option`. -/
structure GenerationSettings where
  prompts : List JStr
  negativePrompt : Option JStr := Option.none
  style : Option (ImageStyle ⊕ VideoStyle) := Option.none
  language : Option Language := Option.none
  persona : Option AIPersona := Option.none
  aspectRatio : Option AspectRatio := Option.none
  seed : Option Nat := Option.none
  duration : Option VideoDuration := Option.none
  cameraMovement : Option CameraMovement := Option.none
  quality : Option VideoQuality := Option.none
  framing : Option VideoFraming := Option.none
  loop : Option Bool := Option.none
  fps : Option VideoFPS := Option.none
  styleIntensity : Option Intensity := Option.none
  motionIntensity : Option Intensity := Option.none
  fxStyle : Option SoundFXStyle := Option.none
  audioMood : Option AudioMood := Option.none
  batchSize : Option BatchSize := Option.none
  negativeIntensity : Option Intensity := Option.none
deriving DecidableEq

/-- `LibraryItem` from `types.ts`. -/
structure LibraryItem where
  id : JStr
  type : MediaType
  src : JStr
  settings : GenerationSettings
  createdAt : JStr
  variations : Option (List JStr) := Option.none
  audioSrc : Option JStr := Option.none
deriving DecidableEq

/-! ## Prompt construction (`geminiService`) -/

def personaInstructions : AIPersona → JStr
  | .none => str "As a versatile master artist,"
  | .photographer =>
    str "As a world-renowned photographer known for capturing stunning detail and emotion,"
  | .illustrator => str "As a master illustrator with a distinct and creative style,"
  | .cinematographer => str "As a world-class cinematographer and VFX artist,"
  | .vfxArtist =>
    str "As a senior VFX artist specializing in photorealistic effects and compositing,"
  | .conceptArtist =>
    str "As a visionary concept artist for AAA video games and blockbuster films,"
  | .wildlifePhotographer =>
    str "As a National Geographic wildlife photographer on assignment,"
  | .sciFiArtist =>
    str "As a legendary sci-fi concept artist envisioning futuristic worlds,"
  | .foodPhotographer =>
    str "As a world-class food photographer creating delicious, mouth-watering imagery,"
  | .architecturalDesigner =>
    str "As a leading architectural designer known for innovative and beautiful structures,"

def intensityMap : Intensity → JStr
  | .subtle => str "with a subtle hint of the specified style."
  | .balanced => str "with a balanced and clear representation of the specified style."
  | .strong =>
    str "with an extremely strong, dominant, and stylized representation of the specified style."

def imageLanguageInstruction (language : Language) : JStr :=
  if language = Language.kinyarwanda then
    str "The user is providing the prompt in Kinyarwanda; interpret it accordingly."
  else []

/-- In the source `style` has plain string type; `style.replace('-', ' ')`
replaces only the first hyphen. -/
def imageStyleInstruction (style : JStr) (styleIntensity : Intensity) : JStr :=
  if style ≠ str "none" then
    str "Style: " ++ jsReplaceFirst (str "-") (str " ") style ++ str ". Style Intensity: "
      ++ intensityMap styleIntensity
  else []

def imageNegativeInstruction (negativePrompt : JStr) : JStr :=
  if negativePrompt ≠ [] then str "Avoid the following: " ++ negativePrompt ++ str "."
  else []

/-- `prompts[0]` on an empty JavaScript array is `undefined`, which the
template literal renders as the text `undefined`. -/
def imageMainPrompt (prompts : List JStr) : JStr :=
  if prompts.length > 1 then
    str "expertly blend the following distinct concepts into a single, cohesive, and beautiful image: "
      ++ List.intercalate (str " and ") (prompts.map (fun p => str "\"" ++ p ++ str "\""))
      ++ str "."
  else
    str "create the following image: " ++ prompts.headD (str "undefined") ++ str "."

def constructImagePrompt (prompts : List JStr) (style : JStr) (negativePrompt : JStr)
    (language : Language) (persona : AIPersona) (styleIntensity : Intensity) : JStr :=
  trim (personaInstructions persona ++ str " " ++ imageMainPrompt prompts ++ str " "
    ++ imageLanguageInstruction language ++ str " " ++ imageStyleInstruction style styleIntensity
    ++ str " " ++ imageNegativeInstruction negativePrompt)

def videoLanguageInstruction (language : Language) : JStr :=
  if language = Language.kinyarwanda then
    str "The user is providing the prompt in Kinyarwanda; interpret it as a creative instruction for the scene."
  else []

def videoStyleInstruction (style : VideoStyle) : JStr :=
  if style ≠ VideoStyle.none then str "Visual Style: " ++ videoStyleStr style ++ str "."
  else []

def videoNegativeInstruction (negativePrompt : JStr) : JStr :=
  if negativePrompt ≠ [] then
    str "Crucially, avoid the following elements: " ++ negativePrompt ++ str "."
  else []

def durationMap : VideoDuration → JStr
  | .short => str "a short clip, approximately 5-8 seconds long."
  | .medium => str "a medium-length clip, approximately 15 seconds long."
  | .long => str "a long clip, aiming for 30 seconds."
  | .oneMinute => str "a one-minute long cinematic scene."
  | .threeMinute =>
    str "a detailed, three-minute long epic scene. This is a goal, the final length may vary."

def videoDurationInstruction (duration : VideoDuration) : JStr :=
  str "Duration Goal: " ++ durationMap duration ++ str "."

def motionIntensityMap : Intensity → JStr
  | .subtle => str "subtle and slow"
  | .balanced => str "clear and moderately paced"
  | .strong => str "dynamic and fast-paced"

def videoCameraInstruction (cameraMovement : CameraMovement) (motionIntensity : Intensity) :
    JStr :=
  if cameraMovement ≠ CameraMovement.none then
    str "Camera Movement: A " ++ motionIntensityMap motionIntensity ++ str " "
      ++ jsReplaceFirst (str "-") (str " ") (cameraMovementStr cameraMovement) ++ str "."
  else []

def videoFramingInstruction (framing : VideoFraming) : JStr :=
  if framing ≠ VideoFraming.none then
    str "Shot Framing: Use a " ++ jsReplaceFirst (str "-") (str " ") (videoFramingStr framing)
      ++ str "."
  else []

def videoQualityInstruction (quality : VideoQuality) : JStr :=
  if quality = VideoQuality.high then
    str "Output Quality: Aim for 8K resolution, ultra-high fidelity, with photorealistic rendering and professional color grading."
  else []

def videoLoopInstruction (loop : Bool) : JStr :=
  if loop then str "The video must be a perfect, seamless loop." else []

def videoAspectInstruction (aspectRatio : AspectRatio) : JStr :=
  str "Aspect Ratio: The final video must be in " ++ aspectRatioStr aspectRatio ++ str " format."

def videoFPSInstruction (fps : VideoFPS) : JStr :=
  str "Frame Rate: The video must be rendered at " ++ videoFPSStr fps
    ++ str " frames per second."

def videoAudioInstruction (audioMood : AudioMood) : JStr :=
  if audioMood ≠ AudioMood.none then
    str "The overall mood of the scene should be appropriate for a soundtrack that is "
      ++ jsReplaceFirst (str "-") (str " ") (audioMoodStr audioMood) ++ str "."
  else []

/-- The template literal assembled by `constructVideoPrompt`, before
`.replace(/\s+/g, ' ').trim()`; the interior `"\n    "` chunks are the
literal line breaks and indentation of the template. -/
def videoPromptTemplate (prompt : JStr) (style : VideoStyle) (negativePrompt : JStr)
    (duration : VideoDuration) (cameraMovement : CameraMovement) (quality : VideoQuality)
    (language : Language) (framing : VideoFraming) (persona : AIPersona) (loop : Bool)
    (aspectRatio : AspectRatio) (fps : VideoFPS) (motionIntensity : Intensity)
    (audioMood : AudioMood) : JStr :=
  personaInstructions persona ++ str " create a video based on this scene: \"" ++ prompt
    ++ str "\". \n    " ++ videoLanguageInstruction language
    ++ str "\n    " ++ videoStyleInstruction style
    ++ str " \n    " ++ videoCameraInstruction cameraMovement motionIntensity
    ++ str "\n    " ++ videoFramingInstruction framing
    ++ str "\n    " ++ videoDurationInstruction duration
    ++ str "\n    " ++ videoQualityInstruction quality
    ++ str "\n    " ++ videoAspectInstruction aspectRatio
    ++ str "\n    " ++ videoFPSInstruction fps
    ++ str "\n    " ++ videoAudioInstruction audioMood
    ++ str "\n    " ++ videoNegativeInstruction negativePrompt
    ++ str "\n    " ++ videoLoopInstruction loop

def constructVideoPrompt (prompt : JStr) (style : VideoStyle) (negativePrompt : JStr)
    (duration : VideoDuration) (cameraMovement : CameraMovement) (quality : VideoQuality)
    (language : Language) (framing : VideoFraming) (persona : AIPersona) (loop : Bool)
    (aspectRatio : AspectRatio) (fps : VideoFPS) (motionIntensity : Intensity)
    (audioMood : AudioMood) : JStr :=
  trim (collapseWS (videoPromptTemplate prompt style negativePrompt duration cameraMovement
    quality language framing persona loop aspectRatio fps motionIntensity audioMood))

/-! ## Subscription gating (`VideoGenerator.tsx`) -/

def tierLevels : SubscriptionTier → Nat
  | .free => 0
  | .silver => 1
  | .golden => 2
  | .diamond => 3

/-- `handlePremiumFeature` runs `action` on the gated state unless the
current tier is below the required tier, in which case `promptUpgrade` is
invoked instead; the Boolean result records whether the upgrade prompt was
shown. -/
def handlePremiumFeature {σ : Type} (subscriptionTier requiredTier : SubscriptionTier)
    (action : σ → σ) (st : σ) : σ × Bool :=
  if tierLevels subscriptionTier < tierLevels requiredTier then (st, true)
  else (action st, false)

/-- The strict ordering free < silver < golden < diamond, written from the
claim's wording rather than from `tierLevels`. -/
def tierChainLt : SubscriptionTier → SubscriptionTier → Bool
  | .free, .silver => true
  | .free, .golden => true
  | .free, .diamond => true
  | .silver, .golden => true
  | .silver, .diamond => true
  | .golden, .diamond => true
  | _, _ => false

def tierChainLe (a b : SubscriptionTier) : Bool := a == b || tierChainLt a b

/-! ## Prompt history (`usePromptHistory` in `VideoGenerator.tsx`) -/

def addPromptToHistory (prompt : JStr) (history : List JStr) : List JStr :=
  if trim prompt = [] then history
  else (prompt :: history.filter (fun p => p != prompt)).take 10

/-! ## Library operations (`App.tsx`, `Library`, `Settings`) -/

def natDigits (n : Nat) : JStr := (Nat.repr n).data

def padZeros (w n : Nat) : JStr :=
  List.replicate (w - (natDigits n).length) '0' ++ natDigits n

/-- Model of the browser's `Date.prototype.toISOString` for a non-negative
epoch millisecond count (civil-from-days conversion). -/
def toISOString (ms : Nat) : JStr :=
  let days := ms / 86400000
  let msOfDay := ms % 86400000
  let z := days + 719468
  let era := z / 146097
  let doe := z % 146097
  let yoe := (doe - doe / 1460 + doe / 36524 - doe / 146096) / 365
  let y := yoe + era * 400
  let doy := doe - (365 * yoe + yoe / 4 - yoe / 100)
  let mp := (5 * doy + 2) / 153
  let d := doy - (153 * mp + 2) / 5 + 1
  let m := if mp < 10 then mp + 3 else mp - 9
  let year := if m ≤ 2 then y + 1 else y
  padZeros 4 year ++ str "-" ++ padZeros 2 m ++ str "-" ++ padZeros 2 d ++ str "T"
    ++ padZeros 2 (msOfDay / 3600000) ++ str ":" ++ padZeros 2 (msOfDay % 3600000 / 60000)
    ++ str ":" ++ padZeros 2 (msOfDay % 60000 / 1000) ++ str "."
    ++ padZeros 3 (msOfDay % 1000) ++ str "Z"

/-- The argument record of `App.handleSaveToLibrary`. -/
structure SavePayload where
  type : MediaType
  src : JStr
  settings : GenerationSettings
  audioSrc : Option JStr := Option.none
  variations : Option (List JStr) := Option.none
deriving DecidableEq

/-- `App.handleSaveToLibrary`: prepends a new item whose `id` is
`item-${Date.now()}` and whose `createdAt` is `new Date().toISOString()`. -/
def handleSaveToLibrary (payload : SavePayload) (nowMillis : Nat)
    (items : List LibraryItem) : List LibraryItem :=
  { id := str "item-" ++ natDigits nowMillis
    type := payload.type
    src := payload.src
    settings := payload.settings
    createdAt := toISOString nowMillis
    variations := payload.variations
    audioSrc := payload.audioSrc } :: items

/-- `Library.handleDelete`: keep the items whose id differs. -/
def handleDelete (itemId : JStr) (items : List LibraryItem) : List LibraryItem :=
  items.filter (fun item => item.id != itemId)

/-- `Settings.handleClearLibrary`: `setLibraryItems([])`. -/
def handleClearLibrary (_items : List LibraryItem) : List LibraryItem := []

inductive LibOp
  | save (payload : SavePayload) (nowMillis : Nat)
  | del (itemId : JStr)
  | clear

def applyLibOp (items : List LibraryItem) : LibOp → List LibraryItem
  | LibOp.save payload nowMillis => handleSaveToLibrary payload nowMillis items
  | LibOp.del itemId => handleDelete itemId items
  | LibOp.clear => handleClearLibrary items

def runLibOps (ops : List LibOp) : List LibraryItem := ops.foldl applyLibOp []

/-- Field presence of a library item: non-empty `id` and `createdAt`, and a
`type` from the two-element union; `src` and `settings.prompts` are present
by construction of the record. -/
def itemWF (item : LibraryItem) : Prop :=
  item.id ≠ [] ∧ item.createdAt ≠ []
    ∧ (item.type = MediaType.image ∨ item.type = MediaType.video)

/-! ## Tier persistence (`App.tsx` effects) -/

/-- `JSON.stringify` on a string value containing no characters that need
escaping (true of the four tier names). -/
def jsonStringifyStr (s : JStr) : JStr := str "\"" ++ s ++ str "\""

/-- The numeric value of a hexadecimal digit, for `\uXXXX` escapes. -/
def hexVal (c : Char) : Option Nat :=
  if '0' ≤ c ∧ c ≤ '9' then some (c.toNat - '0'.toNat)
  else if 'a' ≤ c ∧ c ≤ 'f' then some (c.toNat - 'a'.toNat + 10)
  else if 'A' ≤ c ∧ c ≤ 'F' then some (c.toNat - 'A'.toNat + 10)
  else Option.none

/-- The short JSON escapes `\" \\ \/ \b \f \n \r \t`. -/
def escMap (c : Char) : Option Char :=
  if c = '"' then some '"'
  else if c = '\\' then some '\\'
  else if c = '/' then some '/'
  else if c = 'b' then some (Char.ofNat 8)
  else if c = 'f' then some (Char.ofNat 12)
  else if c = 'n' then some '\n'
  else if c = 'r' then some '\r'
  else if c = 't' then some '\t'
  else Option.none

/-- Decode the body of a JSON string literal (everything after the opening
quote): returns the decoded characters and the remainder after the closing
quote, or `none` on an unterminated literal or a malformed escape. -/
def decodeJsonStringBody : JStr → Option (JStr × JStr)
  | [] => Option.none
  | '"' :: rest => some ([], rest)
  | '\\' :: 'u' :: h1 :: h2 :: h3 :: h4 :: rest =>
    match hexVal h1, hexVal h2, hexVal h3, hexVal h4, decodeJsonStringBody rest with
    | some a, some b, some c, some d, some (s, r) =>
      some (Char.ofNat (((a * 16 + b) * 16 + c) * 16 + d) :: s, r)
    | _, _, _, _, _ => Option.none
  | '\\' :: e :: rest =>
    match escMap e, decodeJsonStringBody rest with
    | some ch, some (s, r) => some (ch :: s, r)
    | _, _ => Option.none
  | c :: rest =>
    match decodeJsonStringBody rest with
    | some (s, r) => some (c :: s, r)
    | Option.none => Option.none

/-- Model of `JSON.parse` restricted to string results: leading and
trailing JSON whitespace (space, tab, newline, carriage return — exactly
`ws`) is skipped and a double-quoted string literal is decoded, including
the `\uXXXX` and short escapes. `none` stands for a parse error or for a
JSON value that is not a string; the load effect treats the two alike,
since a non-string value is never in the whitelist. (Raw control
characters inside the literal are accepted although real JSON rejects
them; such an input decodes to a string containing the control character,
which is outside the whitelist, so the load outcome agrees with a real
parse error. A lone-surrogate `\uXXXX` decodes to the null character here
and to an unpaired surrogate in JavaScript; neither is a whitelisted
name.) -/
def jsonParseString (s : JStr) : Option JStr :=
  match s.dropWhile ws with
  | '"' :: rest =>
    match decodeJsonStringBody rest with
    | some (v, r) => if r.dropWhile ws = [] then some v else Option.none
    | Option.none => Option.none
  | _ => Option.none

/-- The tier save effect: `localStorage.setItem('creative-suite-tier',
JSON.stringify(subscriptionTier))`. -/
def saveTierValue (tier : SubscriptionTier) : JStr := jsonStringifyStr (tierStr tier)

/-- The startup load effect for the tier key: a missing or empty stored
value is skipped, a parse failure is caught, and a parsed value is accepted
only when it is in the four-element whitelist. -/
def loadStoredTier : Option JStr → SubscriptionTier → SubscriptionTier
  | Option.none, current => current
  | some s, current =>
    if s = [] then current
    else
      match jsonParseString s with
      | Option.none => current
      | some v =>
        if v = str "free" then SubscriptionTier.free
        else if v = str "silver" then SubscriptionTier.silver
        else if v = str "golden" then SubscriptionTier.golden
        else if v = str "diamond" then SubscriptionTier.diamond
        else current

/-! ## Video generation polling (`generateVideoInternal`) -/

structure VideoRef where
  uri : Option JStr
deriving DecidableEq

structure GeneratedVideo where
  video : Option VideoRef
deriving DecidableEq

structure VideosResponse where
  generatedVideos : Option (List GeneratedVideo)
deriving DecidableEq

structure VideosOperation where
  done : Bool
  response : Option VideosResponse
deriving DecidableEq

/-- The optional chain `operation.response?.generatedVideos?.[0]?.video?.uri`. -/
def operationDownloadLink (op : VideosOperation) : Option JStr :=
  (((op.response.bind fun r => r.generatedVideos).bind fun gs => gs.head?).bind
    fun g => g.video).bind fun v => v.uri

/-- The fixed poll interval: `setTimeout(resolve, 10000)`. -/
def pollIntervalMs : Nat := 10000

/-- The sequence of operations the loop observes: the initial response
followed by the successive poll responses. -/
def opSeq (op : VideosOperation) (polls : Nat → VideosOperation) : Nat → VideosOperation
  | 0 => op
  | n + 1 => polls n

/-- The `while (!operation.done)` loop, with fuel making the partial loop a
total function; `none` means the fuel ran out before a done response. -/
def pollUntilDone : VideosOperation → (Nat → VideosOperation) → Nat → Option VideosOperation
  | op, _, 0 => if op.done then some op else Option.none
  | op, polls, fuel + 1 =>
    if op.done then some op else pollUntilDone (polls 0) (fun n => polls (n + 1)) fuel

def videoErrMsg : JStr := str "Video generation failed or did not return a valid link."

def downloadErrMsg : JStr := str "Failed to download the generated video."

/-- `generateVideoInternal` after the initial request: poll until done, then
throw when the completed operation has no truthy download link, otherwise
fetch the video (`fetchOk` is the response's `ok` flag) and return the
object URL of its blob. -/
def generateVideoInternal (initialOp : VideosOperation) (polls : Nat → VideosOperation)
    (fetchOk : JStr → Bool) (createObjectURL : JStr → JStr) (fuel : Nat) :
    Option (Except JStr JStr) :=
  match pollUntilDone initialOp polls fuel with
  | Option.none => Option.none
  | some operation =>
    match operationDownloadLink operation with
    | Option.none => some (Except.error videoErrMsg)
    | some downloadLink =>
      if downloadLink = [] then some (Except.error videoErrMsg)
      else if fetchOk downloadLink then some (Except.ok (createObjectURL downloadLink))
      else some (Except.error downloadErrMsg)

/-! ## VideoGenerator.handleSubmit -/

inductive VideoToolMode | textToVideo | imageToVideo
deriving DecidableEq

/-- Which of the two concurrently awaited promises settles first; this is
the only timing information `Promise.all` can observe. -/
inductive FirstSettled | video | audio
deriving DecidableEq

/-- `Promise.all` on a pair: fulfilled with the pair when both fulfil,
otherwise rejected with the first rejection. -/
def promiseAllPair {α β : Type} (v : Except JStr α) (a : Except JStr β)
    (first : FirstSettled) : Except JStr (α × β) :=
  match v, a with
  | Except.ok x, Except.ok y => Except.ok (x, y)
  | Except.error e, Except.ok _ => Except.error e
  | Except.ok _, Except.error e => Except.error e
  | Except.error ev, Except.error ea =>
    Except.error (match first with
      | FirstSettled.video => ev
      | FirstSettled.audio => ea)

/-- The form state read by `handleSubmit`; `imageFile` records whether a
source image is selected. -/
structure FormState where
  mode : VideoToolMode
  prompt : JStr
  negativePrompt : JStr
  style : VideoStyle
  duration : VideoDuration
  cameraMovement : CameraMovement
  quality : VideoQuality
  language : Language
  framing : VideoFraming
  persona : AIPersona
  loopVideo : Bool
  aspectRatio : AspectRatio
  fps : VideoFPS
  motionIntensity : Intensity
  audioMood : AudioMood
  imageFile : Bool

/-- The component state `handleSubmit` can change, plus the library list
owned by `App` and the toasts it raises. -/
structure SubmitState where
  error : Option JStr
  isLoading : Bool
  generatedVideo : Option JStr
  generatedAudio : Option JStr
  libraryItems : List LibraryItem
  toasts : List (JStr × ToastType)
  lastSettings : Option GenerationSettings
  promptHistory : List JStr
deriving DecidableEq

/-- The `currentSettings` record built by `handleSubmit`. -/
def currentSettingsOf (f : FormState) : GenerationSettings :=
  { prompts := [f.prompt]
    negativePrompt := some f.negativePrompt
    style := some (Sum.inr f.style)
    duration := some f.duration
    cameraMovement := some f.cameraMovement
    quality := some f.quality
    language := some f.language
    framing := some f.framing
    persona := some f.persona
    loop := some f.loopVideo
    aspectRatio := some f.aspectRatio
    fps := some f.fps
    motionIntensity := some f.motionIntensity
    audioMood := some f.audioMood }

/-- `VideoGenerator.handleSubmit`. The video request's outcome is
`videoAttempts 0` (the code issues exactly one request); `audioOracle` is
the outcome of `generateSoundEffect`, consulted only when the audio mood is
not `none`; `first` says which promise settles first. -/
def handleSubmit (f : FormState) (videoAttempts : Nat → Except JStr JStr)
    (audioOracle : Except JStr (Option JStr)) (first : FirstSettled) (nowMillis : Nat)
    (st : SubmitState) : SubmitState :=
  if f.prompt = [] then
    { st with error := some (str "A prompt is required to generate a video.") }
  else if f.mode = VideoToolMode.imageToVideo ∧ f.imageFile = false then
    { st with error := some (str "An image is required for image-to-video generation.") }
  else
    let st1 : SubmitState :=
      { st with
          isLoading := true
          error := Option.none
          generatedVideo := Option.none
          generatedAudio := Option.none }
    let currentSettings := currentSettingsOf f
    let st2 : SubmitState :=
      { st1 with
          lastSettings := some currentSettings
          promptHistory := addPromptToHistory f.prompt st1.promptHistory }
    let audioPromise : Except JStr (Option JStr) :=
      if f.audioMood ≠ AudioMood.none then audioOracle else Except.ok Option.none
    match promiseAllPair (videoAttempts 0) audioPromise first with
    | Except.ok (videoResult, audioResult) =>
      let audio : Option JStr :=
        match audioResult with
        | some a => if a = [] then Option.none else some a
        | Option.none => Option.none
      let st3 : SubmitState :=
        { st2 with
            generatedVideo := some videoResult
            generatedAudio := audio }
      let st4 : SubmitState :=
        { st3 with
            libraryItems := handleSaveToLibrary
              { type := MediaType.video
                src := videoResult
                settings := currentSettings
                audioSrc := audio } nowMillis st3.libraryItems
            toasts := st3.toasts ++ [(str "Saved to Library!", ToastType.success)] }
      { st4 with isLoading := false }
    | Except.error e =>
      { st2 with
          error := some e
          toasts := st2.toasts ++ [(e, ToastType.error)]
          isLoading := false }

/-! ## Concrete data for witnesses -/

def demoOpPending : VideosOperation := { done := false, response := Option.none }

def demoOpDone : VideosOperation :=
  { done := true
    response := some
      { generatedVideos := some [{ video := some { uri := some (str "http://v") } }] } }

def demoPolls : Nat → VideosOperation :=
  fun n => if n = 0 then demoOpPending else demoOpDone

def demoForm : FormState :=
  { mode := VideoToolMode.textToVideo
    prompt := str "a chase"
    negativePrompt := []
    style := VideoStyle.none
    duration := VideoDuration.short
    cameraMovement := CameraMovement.none
    quality := VideoQuality.standard
    language := Language.english
    framing := VideoFraming.none
    persona := AIPersona.cinematographer
    loopVideo := false
    aspectRatio := AspectRatio.r1x1
    fps := VideoFPS.f24
    motionIntensity := Intensity.balanced
    audioMood := AudioMood.none
    imageFile := false }

def demoState : SubmitState :=
  { error := Option.none
    isLoading := false
    generatedVideo := Option.none
    generatedAudio := Option.none
    libraryItems := []
    toasts := []
    lastSettings := Option.none
    promptHistory := [] }

/-! ### Whitespace and trimming lemmas -/

theorem dropWhile_append_eq (p : Char → Bool) (a b : JStr) :
    (a ++ b).dropWhile p =
      if (a.dropWhile p).isEmpty then b.dropWhile p else a.dropWhile p ++ b := by
  induction a with
  | nil => simp
  | cons c a ih =>
    by_cases h : p c
    · simpa [List.dropWhile_cons, h] using ih
    · simp [List.dropWhile_cons, h]

theorem dropWhile_eq_nil_iff_all (p : Char → Bool) (s : JStr) :
    (s.dropWhile p).isEmpty = s.all p := by
  induction s with
  | nil => simp
  | cons c s ih =>
    by_cases h : p c
    · simpa [List.dropWhile_cons, h] using ih
    · simp [List.dropWhile_cons, h]

theorem allWS_append (a b : JStr) : allWS (a ++ b) = (allWS a && allWS b) := by
  simp [allWS]

theorem allWS_reverse (s : JStr) : allWS s.reverse = allWS s := by
  simp [allWS, List.all_reverse]

theorem trimLeft_append (a b : JStr) :
    trimLeft (a ++ b) = if allWS a then trimLeft b else trimLeft a ++ b := by
  unfold trimLeft
  rw [dropWhile_append_eq, dropWhile_eq_nil_iff_all]
  rfl

theorem trimRight_append (a b : JStr) :
    trimRight (a ++ b) = if allWS b then trimRight a else a ++ trimRight b := by
  unfold trimRight
  rw [List.reverse_append, dropWhile_append_eq, dropWhile_eq_nil_iff_all,
    show b.reverse.all ws = allWS b by rw [← allWS]; exact allWS_reverse b]
  by_cases h : allWS b
  · simp [h]
  · simp [h]

theorem trimLeft_cons_of_nonws {c : Char} (h : ws c = false) (t : JStr) :
    trimLeft (c :: t) = c :: t := by
  simp [trimLeft, List.dropWhile_cons, h]

theorem trimRight_singleton_of_nonws {c : Char} (h : ws c = false) :
    trimRight [c] = [c] := by
  simp [trimRight, List.dropWhile_cons, h]

theorem trimRight_snoc_of_nonws (a : JStr) {c : Char} (h : ws c = false) :
    trimRight (a ++ [c]) = a ++ [c] := by
  rw [trimRight_append]
  simp [allWS, h, trimRight_singleton_of_nonws h]

theorem dropWhile_idem (p : Char → Bool) (s : JStr) :
    (s.dropWhile p).dropWhile p = s.dropWhile p := by
  induction s with
  | nil => rfl
  | cons c s ih =>
    by_cases h : p c
    · simpa [List.dropWhile_cons, h] using ih
    · simp [List.dropWhile_cons, h]

theorem trimLeft_idem (s : JStr) : trimLeft (trimLeft s) = trimLeft s :=
  dropWhile_idem ws s

theorem trimRight_idem (s : JStr) : trimRight (trimRight s) = trimRight s := by
  unfold trimRight
  rw [List.reverse_reverse, dropWhile_idem]

theorem trimLeft_trimRight_of_fixed {s : JStr} (h : trimLeft s = s) :
    trimLeft (trimRight s) = trimRight s := by
  cases s with
  | nil => rfl
  | cons c t =>
    have hc : ws c = false := by
      by_contra hcon
      have hc' : ws c = true := by revert hcon; cases ws c <;> simp
      have hlen : (t.dropWhile ws).length ≤ t.length :=
        (List.dropWhile_sublist ws).length_le
      have heq : (trimLeft (c :: t)).length = (c :: t).length := by rw [h]
      rw [show trimLeft (c :: t) = t.dropWhile ws by
            simp [trimLeft, List.dropWhile_cons, hc']] at heq
      simp at heq
      omega
    rw [show (c :: t) = [c] ++ t from rfl, trimRight_append]
    by_cases ht : allWS t
    · rw [if_pos ht, trimRight_singleton_of_nonws hc]
      exact trimLeft_cons_of_nonws hc []
    · rw [if_neg ht]
      exact trimLeft_cons_of_nonws hc _

theorem trim_trim (s : JStr) : trim (trim s) = trim s := by
  unfold trim
  rw [trimLeft_trimRight_of_fixed (trimLeft_idem s), trimRight_idem]

/-! ### Segment-containment lemmas -/

theorem isPrefixOf_append_self (p x : JStr) : p.isPrefixOf (p ++ x) = true := by
  induction p with
  | nil => simp [List.isPrefixOf]
  | cons c p ih => simp [List.isPrefixOf, ih]

theorem containsSeg_nil (s : JStr) : containsSeg [] s = true := by
  cases s <;> simp [containsSeg, List.isPrefixOf]

theorem containsSeg_append_mid (m a b : JStr) :
    containsSeg m (a ++ (m ++ b)) = true := by
  induction a with
  | nil =>
    cases m with
    | nil => exact containsSeg_nil b
    | cons c t =>
      simp only [List.nil_append]
      rw [show (c :: t) ++ b = c :: (t ++ b) from rfl]
      simp [containsSeg, show (c :: t).isPrefixOf (c :: (t ++ b)) = true from
        isPrefixOf_append_self (c :: t) b]
  | cons c a ih => simp [containsSeg, ih]

/-- A segment whose characters are not all whitespace and which is fixed by
`trimRight` survives trimming of any surrounding string that starts with a
non-whitespace character. -/
theorem containsSeg_trim_of_mid (P m S : JStr)
    (hP : ∃ c t, P = c :: t ∧ ws c = false)
    (hws : allWS m = false) (hr : trimRight m = m) :
    containsSeg m (trim (P ++ (m ++ S))) = true := by
  obtain ⟨c, t, hPe, hc⟩ := hP
  have h1 : trimLeft (P ++ (m ++ S)) = P ++ (m ++ S) := by
    rw [hPe]
    exact trimLeft_cons_of_nonws hc _
  unfold trim
  rw [h1, show P ++ (m ++ S) = (P ++ m) ++ S by simp, trimRight_append]
  by_cases hS : allWS S
  · rw [if_pos hS, trimRight_append, if_neg (by simp [hws]), hr]
    simpa using containsSeg_append_mid m P []
  · rw [if_neg hS, List.append_assoc]
    exact containsSeg_append_mid m P (trimRight S)

/-! ### Collapse lemmas -/

theorem endsNonWS_cons (c : Char) (l : JStr) (h : l ≠ []) :
    endsNonWS (c :: l) = endsNonWS l := by
  cases l with
  | nil => exact absurd rfl h
  | cons d t => rfl

theorem endsNonWS_append (a b : JStr) (h : endsNonWS b = true) :
    endsNonWS (a ++ b) = true := by
  have hb : b ≠ [] := by cases b with
    | nil => simp [endsNonWS] at h
    | cons c t => simp
  induction a with
  | nil => simpa using h
  | cons c a ih =>
    rw [List.cons_append, endsNonWS_cons c (a ++ b)
      (by cases b with
        | nil => exact absurd rfl hb
        | cons d t => simp)]
    exact ih

theorem allWS_eq_false_of_endsNonWS {s : JStr} (h : endsNonWS s = true) :
    allWS s = false := by
  induction s with
  | nil => simp [endsNonWS] at h
  | cons c t ih =>
    cases t with
    | nil =>
      simp [endsNonWS] at h
      simp [allWS, h]
    | cons d u =>
      rw [endsNonWS_cons c (d :: u) (by simp)] at h
      have := ih h
      rw [show (c :: d :: u) = [c] ++ (d :: u) from rfl, allWS_append, this]
      simp

theorem trimRight_of_endsNonWS {s : JStr} (h : endsNonWS s = true) :
    trimRight s = s := by
  induction s with
  | nil => simp [endsNonWS] at h
  | cons c t ih =>
    cases t with
    | nil =>
      simp [endsNonWS] at h
      exact trimRight_singleton_of_nonws (by simpa using h)
    | cons d u =>
      rw [endsNonWS_cons c (d :: u) (by simp)] at h
      rw [show (c :: d :: u) = [c] ++ (d :: u) from rfl, trimRight_append,
        if_neg (by simp [allWS_eq_false_of_endsNonWS h]), ih h]

theorem collapseGo_cons (pending : Bool) (c : Char) (l : JStr) :
    collapseGo pending (c :: l) =
      if ws c then collapseGo true l
      else if pending then ' ' :: c :: collapseGo false l
      else c :: collapseGo false l := rfl

theorem collapseGo_append (y : JStr) :
    ∀ (x : JStr), endsNonWS x = true → ∀ (pending : Bool),
      collapseGo pending (x ++ y) = collapseGo pending x ++ collapseGo false y := by
  intro x
  induction x with
  | nil => intro h; simp [endsNonWS] at h
  | cons c x ih =>
    intro h pending
    cases x with
    | nil =>
      simp only [endsNonWS] at h
      have hc : ws c = false := by simpa using h
      cases pending <;> simp [collapseGo_cons, collapseGo, hc]
    | cons d u =>
      rw [endsNonWS_cons c (d :: u) (by simp)] at h
      have ihx := ih h
      rw [List.cons_append, collapseGo_cons pending c (d :: u ++ y),
        collapseGo_cons pending c (d :: u)]
      by_cases hc : ws c
      · rw [if_pos hc, if_pos hc, ihx true]
      · rw [if_neg hc, if_neg hc, ihx false]
        cases pending <;> simp

theorem collapseGo_append_suffix (m : JStr)
    (hstart : ∃ c t, m = c :: t ∧ ws c = false)
    (hfix : collapseGo false m = m) :
    ∀ (x : JStr) (pending : Bool), ∃ z, collapseGo pending (x ++ m) = z ++ m := by
  obtain ⟨c, t, hm, hc⟩ := hstart
  intro x
  induction x with
  | nil =>
    intro pending
    subst hm
    have ht : collapseGo false t = t := by
      have := hfix
      simp [collapseGo, hc] at this
      exact this
    cases pending with
    | false => exact ⟨[], by simp [collapseGo, hc, ht]⟩
    | true => exact ⟨[' '], by simp [collapseGo, hc, ht]⟩
  | cons a x ih =>
    intro pending
    by_cases ha : ws a
    · obtain ⟨z, hz⟩ := ih true
      exact ⟨z, by simp [collapseGo, ha, hz]⟩
    · obtain ⟨z, hz⟩ := ih false
      cases pending with
      | false => exact ⟨a :: z, by simp [collapseGo, ha, hz]⟩
      | true => exact ⟨' ' :: a :: z, by simp [collapseGo, ha, hz]⟩

theorem ne_space_of_nonws {c : Char} (h : ws c = false) : c ≠ ' ' := by
  intro he
  subst he
  simp [ws] at h

theorem spaceOnly_collapseGo (s : JStr) :
    ∀ pending, (collapseGo pending s).all (fun c => !ws c || c = ' ') = true := by
  induction s with
  | nil => intro pending; cases pending <;> decide
  | cons c rest ih =>
    intro pending
    by_cases hc : ws c
    · rw [collapseGo_cons, if_pos hc]
      exact ih true
    · have hc' : (!ws c || decide (c = ' ')) = true := by
        simp only [Bool.or_eq_true, Bool.not_eq_true']
        exact Or.inl (by simpa using hc)
      rw [collapseGo_cons, if_neg hc]
      cases pending with
      | true =>
        rw [if_pos rfl]
        simp only [List.all_cons, Bool.and_eq_true]
        exact ⟨by decide, hc', ih false⟩
      | false =>
        rw [if_neg (by simp)]
        simp only [List.all_cons, Bool.and_eq_true]
        exact ⟨hc', ih false⟩

theorem noDoubleSpace_cons_of_ne {c : Char} (hc : c ≠ ' ') {l : JStr}
    (hl : noDoubleSpace l = true) : noDoubleSpace (c :: l) = true := by
  cases l with
  | nil => rfl
  | cons d u => simp [noDoubleSpace, hc, hl]

theorem noDoubleSpace_tail {c : Char} {l : JStr}
    (h : noDoubleSpace (c :: l) = true) : noDoubleSpace l = true := by
  cases l with
  | nil => rfl
  | cons d u =>
    simp only [noDoubleSpace, Bool.and_eq_true] at h
    exact h.2

theorem noDoubleSpace_cons_cons (a b : Char) (l : JStr) :
    noDoubleSpace (a :: b :: l) =
      (!(a = ' ' && b = ' ') && noDoubleSpace (b :: l)) := rfl

theorem noDoubleSpace_collapseGo (s : JStr) :
    ∀ pending, noDoubleSpace (collapseGo pending s) = true := by
  induction s with
  | nil => intro pending; cases pending <;> decide
  | cons c rest ih =>
    intro pending
    by_cases hc : ws c
    · rw [collapseGo_cons, if_pos hc]
      exact ih true
    · have hc' : c ≠ ' ' := ne_space_of_nonws (by simpa using hc)
      rw [collapseGo_cons, if_neg hc]
      cases pending with
      | true =>
        rw [if_pos rfl, noDoubleSpace_cons_cons, Bool.and_eq_true]
        exact ⟨by simp [hc'], noDoubleSpace_cons_of_ne hc' (ih false)⟩
      | false =>
        rw [if_neg (by simp)]
        exact noDoubleSpace_cons_of_ne hc' (ih false)

theorem noDoubleSpace_append_right (a b : JStr)
    (h : noDoubleSpace (a ++ b) = true) : noDoubleSpace b = true := by
  induction a with
  | nil => exact h
  | cons c a ih => exact ih (noDoubleSpace_tail h)

theorem noDoubleSpace_append_left (a b : JStr)
    (h : noDoubleSpace (a ++ b) = true) : noDoubleSpace a = true := by
  induction a with
  | nil => rfl
  | cons c a ih =>
    cases a with
    | nil => rfl
    | cons d u =>
      simp only [List.cons_append, noDoubleSpace, Bool.and_eq_true] at h ⊢
      exact ⟨h.1, by simpa using ih (by simpa using h.2)⟩

theorem trimLeft_decomp (s : JStr) : s = s.takeWhile ws ++ trimLeft s :=
  (List.takeWhile_append_dropWhile ws s).symm

theorem trimRight_decomp (s : JStr) :
    s = trimRight s ++ (s.reverse.takeWhile ws).reverse := by
  conv_lhs => rw [← List.reverse_reverse s, ← List.takeWhile_append_dropWhile
    (p := ws) (l := s.reverse)]
  rw [List.reverse_append]
  rfl

theorem noDoubleSpace_trim {s : JStr} (h : noDoubleSpace s = true) :
    noDoubleSpace (trim s) = true := by
  have h1 : noDoubleSpace (trimLeft s) = true := by
    have := trimLeft_decomp s
    exact noDoubleSpace_append_right _ _ (this ▸ h)
  have := trimRight_decomp (trimLeft s)
  exact noDoubleSpace_append_left _ _ (this ▸ h1)

theorem all_trim (p : Char → Bool) {s : JStr} (h : s.all p = true) :
    (trim s).all p = true := by
  have h1 : (trimLeft s).all p = true := by
    have hd := trimLeft_decomp s
    rw [hd, List.all_append, Bool.and_eq_true] at h
    exact h.2
  have hd := trimRight_decomp (trimLeft s)
  rw [hd, List.all_append, Bool.and_eq_true] at h1
  exact h1.1

/-- A collapse-fixed segment with non-whitespace first and last characters
survives whitespace collapsing and trimming of any surrounding string. -/
theorem containsSeg_trim_collapse (P m S : JStr)
    (hfix : collapseGo false m = m)
    (hstart : ∃ c t, m = c :: t ∧ ws c = false)
    (hend : endsNonWS m = true) :
    containsSeg m (trim (collapseWS (P ++ (m ++ S)))) = true := by
  obtain ⟨c, t, hm, hc⟩ := hstart
  have h1 : collapseWS (P ++ (m ++ S))
      = collapseGo false (P ++ m) ++ collapseGo false S := by
    unfold collapseWS
    rw [show P ++ (m ++ S) = (P ++ m) ++ S by simp]
    exact collapseGo_append S (P ++ m) (endsNonWS_append P m hend) false
  obtain ⟨z, hz⟩ := collapseGo_append_suffix m ⟨c, t, hm, hc⟩ hfix P false
  rw [h1, hz, List.append_assoc]
  set cS := collapseGo false S with hcS
  have hmall : allWS m = false := by
    rw [hm, show (c :: t) = [c] ++ t from rfl, allWS_append]
    simp [allWS, hc]
  have hmL : trimLeft m = m := by rw [hm]; exact trimLeft_cons_of_nonws hc t
  have hmR : trimRight m = m := trimRight_of_endsNonWS hend
  unfold trim
  rw [trimLeft_append]
  by_cases hzws : allWS z
  · rw [if_pos hzws, trimLeft_append, if_neg (by simp [hmall]), hmL,
      show m ++ cS = [] ++ (m ++ cS) by simp,
      show ([] : JStr) ++ (m ++ cS) = ([] ++ m) ++ cS by simp, trimRight_append]
    by_cases hcs : allWS cS
    · rw [if_pos hcs, trimRight_append, if_neg (by simp [hmall]), hmR]
      simpa using containsSeg_append_mid m [] []
    · rw [if_neg hcs]
      simpa using containsSeg_append_mid m [] (trimRight cS)
  · rw [if_neg hzws, show trimLeft z ++ (m ++ cS) = (trimLeft z ++ m) ++ cS by simp,
      trimRight_append]
    by_cases hcs : allWS cS
    · rw [if_pos hcs, trimRight_append, if_neg (by simp [hmall]), hmR]
      simpa using containsSeg_append_mid m (trimLeft z) []
    · rw [if_neg hcs, List.append_assoc]
      exact containsSeg_append_mid m (trimLeft z) (trimRight cS)

/-! ## Helper lemmas for the prompt-construction claims -/

theorem append_left_ne_nil {a : JStr} (h : a ≠ []) (b : JStr) : a ++ b ≠ [] := by
  cases a with
  | nil => exact absurd rfl h
  | cons c t => simp

theorem head_nonws_decomp (s : JStr) (h : s ≠ []) (h2 : ws (s.headD ' ') = false) :
    ∃ c t, s = c :: t ∧ ws c = false := by
  cases s with
  | nil => exact absurd rfl h
  | cons c t => exact ⟨c, t, rfl, by simpa using h2⟩

theorem head_decomp_append {P : JStr} (rest : JStr)
    (h : ∃ c t, P = c :: t ∧ ws c = false) :
    ∃ c t, P ++ rest = c :: t ∧ ws c = false := by
  obtain ⟨c, t, he, hc⟩ := h
  exact ⟨c, t ++ rest, by rw [he, List.cons_append], hc⟩

theorem personaInstructions_head (persona : AIPersona) :
    ∃ c t, personaInstructions persona = c :: t ∧ ws c = false :=
  head_nonws_decomp (personaInstructions persona)
    (by cases persona <;> decide) (by cases persona <;> decide)

theorem allWS_imageMainPrompt (prompts : List JStr) :
    allWS (imageMainPrompt prompts) = false := by
  unfold imageMainPrompt
  by_cases h : prompts.length > 1
  · rw [if_pos h]
    simp [allWS_append,
      show allWS (str "expertly blend the following distinct concepts into a single, cohesive, and beautiful image: ") = false by decide]
  · rw [if_neg h]
    simp [allWS_append,
      show allWS (str "create the following image: ") = false by decide]

theorem containsSeg_constructImage (prompts : List JStr) (style negativePrompt : JStr)
    (language : Language) (persona : AIPersona) (styleIntensity : Intensity)
    (m Pre Suf : JStr)
    (hsplit : personaInstructions persona ++ str " " ++ imageMainPrompt prompts ++ str " "
      ++ imageLanguageInstruction language ++ str " " ++ imageStyleInstruction style styleIntensity
      ++ str " " ++ imageNegativeInstruction negativePrompt = Pre ++ (m ++ Suf))
    (hPre : ∃ c t, Pre = c :: t ∧ ws c = false)
    (hws : allWS m = false) (hr : trimRight m = m) :
    containsSeg m
      (constructImagePrompt prompts style negativePrompt language persona styleIntensity)
      = true := by
  unfold constructImagePrompt
  rw [hsplit]
  exact containsSeg_trim_of_mid Pre m Suf hPre hws hr

/-- C1: for every non-empty prompt list, `constructImagePrompt` begins with
the persona's instruction text; with more than one prompt the result
contains the blend instruction with each prompt wrapped in double quotes and
joined by `" and "`, and with a single prompt the create-image instruction
for that prompt; the style instruction (with the intensity text) is included
iff the style is not `"none"`, the avoid-instruction iff the negative prompt
is non-empty, and the Kinyarwanda instruction iff the language is
`kinyarwanda`; and the result is trimmed of leading and trailing
whitespace. -/
theorem constructImagePrompt_spec (prompts : List JStr) (style negativePrompt : JStr)
    (language : Language) (persona : AIPersona) (styleIntensity : Intensity)
    (hne : prompts ≠ []) :
    (personaInstructions persona).isPrefixOf
      (constructImagePrompt prompts style negativePrompt language persona styleIntensity)
      = true
    ∧ (prompts.length > 1 →
      containsSeg
        (str "expertly blend the following distinct concepts into a single, cohesive, and beautiful image: "
          ++ (List.intercalate (str " and ") (prompts.map (fun p => str "\"" ++ p ++ str "\""))
          ++ str "."))
        (constructImagePrompt prompts style negativePrompt language persona styleIntensity)
        = true)
    ∧ (∀ p, prompts = [p] →
      containsSeg (str "create the following image: " ++ (p ++ str "."))
        (constructImagePrompt prompts style negativePrompt language persona styleIntensity)
        = true)
    ∧ (style ≠ str "none" →
      containsSeg
        (str "Style: " ++ (jsReplaceFirst (str "-") (str " ") style
          ++ (str ". Style Intensity: " ++ intensityMap styleIntensity)))
        (constructImagePrompt prompts style negativePrompt language persona styleIntensity)
        = true)
    ∧ (imageStyleInstruction style styleIntensity ≠ [] ↔ style ≠ str "none")
    ∧ (negativePrompt ≠ [] →
      containsSeg (str "Avoid the following: " ++ (negativePrompt ++ str "."))
        (constructImagePrompt prompts style negativePrompt language persona styleIntensity)
        = true)
    ∧ (imageNegativeInstruction negativePrompt ≠ [] ↔ negativePrompt ≠ [])
    ∧ (language = Language.kinyarwanda →
      containsSeg
        (str "The user is providing the prompt in Kinyarwanda; interpret it accordingly.")
        (constructImagePrompt prompts style negativePrompt language persona styleIntensity)
        = true)
    ∧ (imageLanguageInstruction language ≠ [] ↔ language = Language.kinyarwanda)
    ∧ trim (constructImagePrompt prompts style negativePrompt language persona styleIntensity)
      = constructImagePrompt prompts style negativePrompt language persona styleIntensity := by
  obtain ⟨c, t, hPe, hc⟩ := personaInstructions_head persona
  refine ⟨?_, ?_, ?_, ?_, ?_, ?_, ?_, ?_, ?_, ?_⟩
  · -- begins with the persona instruction
    have hR : allWS (str " " ++ (imageMainPrompt prompts ++ (str " "
        ++ (imageLanguageInstruction language ++ (str " "
        ++ (imageStyleInstruction style styleIntensity ++ (str " "
        ++ imageNegativeInstruction negativePrompt))))))) = false := by
      simp [allWS_append, allWS_imageMainPrompt prompts]
    unfold constructImagePrompt
    rw [show personaInstructions persona ++ str " " ++ imageMainPrompt prompts ++ str " "
        ++ imageLanguageInstruction language ++ str " "
        ++ imageStyleInstruction style styleIntensity
        ++ str " " ++ imageNegativeInstruction negativePrompt
      = personaInstructions persona ++ (str " " ++ (imageMainPrompt prompts ++ (str " "
        ++ (imageLanguageInstruction language ++ (str " "
        ++ (imageStyleInstruction style styleIntensity ++ (str " "
        ++ imageNegativeInstruction negativePrompt))))))) by simp [List.append_assoc]]
    unfold trim
    have hL : trimLeft (personaInstructions persona ++ (str " " ++ (imageMainPrompt prompts
        ++ (str " " ++ (imageLanguageInstruction language ++ (str " "
        ++ (imageStyleInstruction style styleIntensity ++ (str " "
        ++ imageNegativeInstruction negativePrompt))))))))
      = personaInstructions persona ++ (str " " ++ (imageMainPrompt prompts
        ++ (str " " ++ (imageLanguageInstruction language ++ (str " "
        ++ (imageStyleInstruction style styleIntensity ++ (str " "
        ++ imageNegativeInstruction negativePrompt))))))) := by
      rw [hPe, List.cons_append]
      exact trimLeft_cons_of_nonws hc _
    rw [hL, trimRight_append, if_neg (by simp [hR])]
    exact isPrefixOf_append_self _ _
  · -- blend instruction for multi-prompt lists
    intro hlen
    apply containsSeg_constructImage prompts style negativePrompt language persona styleIntensity
      _ (personaInstructions persona ++ str " ")
      (str " " ++ (imageLanguageInstruction language ++ (str " "
        ++ (imageStyleInstruction style styleIntensity ++ (str " "
        ++ imageNegativeInstruction negativePrompt)))))
    · rw [show imageMainPrompt prompts
        = str "expertly blend the following distinct concepts into a single, cohesive, and beautiful image: "
          ++ (List.intercalate (str " and ")
              (prompts.map (fun p => str "\"" ++ p ++ str "\"")) ++ str ".") by
        unfold imageMainPrompt
        rw [if_pos hlen]
        simp [List.append_assoc]]
      simp [List.append_assoc]
    · exact head_decomp_append _ ⟨c, t, hPe, hc⟩
    · simp [allWS_append,
        show allWS (str "expertly blend the following distinct concepts into a single, cohesive, and beautiful image: ") = false by decide]
    · rw [show str "expertly blend the following distinct concepts into a single, cohesive, and beautiful image: "
          ++ (List.intercalate (str " and ")
              (prompts.map (fun p => str "\"" ++ p ++ str "\"")) ++ str ".")
        = (str "expertly blend the following distinct concepts into a single, cohesive, and beautiful image: "
          ++ List.intercalate (str " and ")
              (prompts.map (fun p => str "\"" ++ p ++ str "\""))) ++ [('.' : Char)] by
        simp [List.append_assoc]
        rfl]
      exact trimRight_snoc_of_nonws _ (by decide)
  · -- create instruction for a single prompt
    intro p hp
    subst hp
    apply containsSeg_constructImage [p] style negativePrompt language persona styleIntensity
      _ (personaInstructions persona ++ str " ")
      (str " " ++ (imageLanguageInstruction language ++ (str " "
        ++ (imageStyleInstruction style styleIntensity ++ (str " "
        ++ imageNegativeInstruction negativePrompt)))))
    · rw [show imageMainPrompt [p]
        = str "create the following image: " ++ (p ++ str ".") by
        unfold imageMainPrompt
        rw [if_neg (by simp)]
        simp [List.append_assoc]]
      simp [List.append_assoc]
    · exact head_decomp_append _ ⟨c, t, hPe, hc⟩
    · simp [allWS_append,
        show allWS (str "create the following image: ") = false by decide]
    · rw [show str "create the following image: " ++ (p ++ str ".")
        = (str "create the following image: " ++ p) ++ [('.' : Char)] by
        simp [List.append_assoc]
        rfl]
      exact trimRight_snoc_of_nonws _ (by decide)
  · -- style instruction appears when the style is not "none"
    intro hs
    apply containsSeg_constructImage prompts style negativePrompt language persona styleIntensity
      _ (personaInstructions persona ++ str " " ++ imageMainPrompt prompts ++ str " "
        ++ imageLanguageInstruction language ++ str " ")
      (str " " ++ imageNegativeInstruction negativePrompt)
    · rw [show imageStyleInstruction style styleIntensity
        = str "Style: " ++ (jsReplaceFirst (str "-") (str " ") style
          ++ (str ". Style Intensity: " ++ intensityMap styleIntensity)) by
        unfold imageStyleInstruction
        rw [if_pos hs]
        simp [List.append_assoc]]
      simp [List.append_assoc]
    · exact head_decomp_append _ (head_decomp_append _ (head_decomp_append _
        (head_decomp_append _ (head_decomp_append _ ⟨c, t, hPe, hc⟩))))
    · simp [allWS_append, show allWS (str "Style: ") = false by decide]
    · have key : ∀ y : JStr, intensityMap styleIntensity = y ++ [('.' : Char)] →
          trimRight (str "Style: " ++ (jsReplaceFirst (str "-") (str " ") style
            ++ (str ". Style Intensity: " ++ intensityMap styleIntensity)))
          = str "Style: " ++ (jsReplaceFirst (str "-") (str " ") style
            ++ (str ". Style Intensity: " ++ intensityMap styleIntensity)) := by
        intro y hy
        rw [hy, show str "Style: " ++ (jsReplaceFirst (str "-") (str " ") style
            ++ (str ". Style Intensity: " ++ (y ++ [('.' : Char)])))
          = (str "Style: " ++ (jsReplaceFirst (str "-") (str " ") style
            ++ (str ". Style Intensity: " ++ y))) ++ [('.' : Char)] by
          simp [List.append_assoc]]
        exact trimRight_snoc_of_nonws _ (by decide)
      cases styleIntensity with
      | subtle => exact key (str "with a subtle hint of the specified style") (by decide)
      | balanced =>
        exact key (str "with a balanced and clear representation of the specified style")
          (by decide)
      | strong =>
        exact key
          (str "with an extremely strong, dominant, and stylized representation of the specified style")
          (by decide)
  · -- the style component is non-empty iff the style is not "none"
    constructor
    · intro h hs
      apply h
      simp [imageStyleInstruction, hs]
    · intro hs
      unfold imageStyleInstruction
      rw [if_pos hs]
      exact append_left_ne_nil (append_left_ne_nil (append_left_ne_nil
        (by decide) _) _) _
  · -- avoid instruction appears when the negative prompt is non-empty
    intro hn
    apply containsSeg_constructImage prompts style negativePrompt language persona styleIntensity
      _ (personaInstructions persona ++ str " " ++ imageMainPrompt prompts ++ str " "
        ++ imageLanguageInstruction language ++ str " "
        ++ imageStyleInstruction style styleIntensity ++ str " ") []
    · rw [show imageNegativeInstruction negativePrompt
        = str "Avoid the following: " ++ (negativePrompt ++ str ".") by
        unfold imageNegativeInstruction
        rw [if_pos hn]
        simp [List.append_assoc]]
      simp [List.append_assoc]
    · exact head_decomp_append _ (head_decomp_append _ (head_decomp_append _
        (head_decomp_append _ (head_decomp_append _ (head_decomp_append _
        (head_decomp_append _ ⟨c, t, hPe, hc⟩))))))
    · simp [allWS_append, show allWS (str "Avoid the following: ") = false by decide]
    · rw [show str "Avoid the following: " ++ (negativePrompt ++ str ".")
        = (str "Avoid the following: " ++ negativePrompt) ++ [('.' : Char)] by
        simp [List.append_assoc]
        rfl]
      exact trimRight_snoc_of_nonws _ (by decide)
  · -- the avoid component is non-empty iff the negative prompt is non-empty
    constructor
    · intro h hn
      apply h
      simp [imageNegativeInstruction, hn]
    · intro hn
      unfold imageNegativeInstruction
      rw [if_pos hn]
      exact append_left_ne_nil (append_left_ne_nil (by decide) _) _
  · -- Kinyarwanda instruction appears when the language is kinyarwanda
    intro hl
    apply containsSeg_constructImage prompts style negativePrompt language persona styleIntensity
      _ (personaInstructions persona ++ str " " ++ imageMainPrompt prompts ++ str " ")
      (str " " ++ (imageStyleInstruction style styleIntensity ++ (str " "
        ++ imageNegativeInstruction negativePrompt)))
    · rw [show imageLanguageInstruction language
        = str "The user is providing the prompt in Kinyarwanda; interpret it accordingly." by
        unfold imageLanguageInstruction
        rw [if_pos hl]]
      simp [List.append_assoc]
    · exact head_decomp_append _ (head_decomp_append _ (head_decomp_append _
        ⟨c, t, hPe, hc⟩))
    · decide
    · rw [show str "The user is providing the prompt in Kinyarwanda; interpret it accordingly."
        = str "The user is providing the prompt in Kinyarwanda; interpret it accordingly"
          ++ [('.' : Char)] from rfl]
      exact trimRight_snoc_of_nonws _ (by decide)
  · -- the Kinyarwanda component is non-empty iff the language is kinyarwanda
    constructor
    · intro h
      by_contra hl
      apply h
      have : language = Language.english := by cases language <;> simp_all
      simp [imageLanguageInstruction, this]
    · intro hl
      unfold imageLanguageInstruction
      rw [if_pos hl]
      decide
  · -- the result is trimmed
    unfold constructImagePrompt
    exact trim_trim _

/-- Witness for C1: the theorem applied at a concrete input. -/
theorem constructImagePrompt_spec_witness :
    ([str "a cat"] ≠ ([] : List JStr))
    ∧ containsSeg (str "create the following image: " ++ (str "a cat" ++ str "."))
      (constructImagePrompt [str "a cat"] (str "anime") (str "blurry")
        Language.kinyarwanda AIPersona.photographer Intensity.subtle) = true :=
  ⟨by decide,
    (constructImagePrompt_spec [str "a cat"] (str "anime") (str "blurry")
      Language.kinyarwanda AIPersona.photographer Intensity.subtle
      (by decide)).2.2.1 (str "a cat") rfl⟩

theorem containsSeg_trimCollapse_of_split (T m Pre Suf : JStr)
    (hsplit : T = Pre ++ (m ++ Suf))
    (hfix : collapseGo false m = m)
    (hstart : ∃ c t, m = c :: t ∧ ws c = false)
    (hend : endsNonWS m = true) :
    containsSeg m (trim (collapseWS T)) = true := by
  rw [hsplit]
  exact containsSeg_trim_collapse Pre m Suf hfix hstart hend

/-- C6: `constructVideoPrompt` always contains the duration-goal,
aspect-ratio and frame-rate instructions; it contains the camera, framing,
style and audio-mood instructions iff the corresponding argument is not
`none`, the 8K quality sentence iff the quality is `high`, and the
seamless-loop sentence iff `loop` is true; and the result has every
whitespace run collapsed to a single space with no leading or trailing
whitespace. -/
theorem constructVideoPrompt_spec (prompt negativePrompt : JStr) (style : VideoStyle)
    (duration : VideoDuration) (cameraMovement : CameraMovement) (quality : VideoQuality)
    (language : Language) (framing : VideoFraming) (persona : AIPersona) (loop : Bool)
    (aspectRatio : AspectRatio) (fps : VideoFPS) (motionIntensity : Intensity)
    (audioMood : AudioMood) :
    containsSeg (str "Duration Goal: " ++ (durationMap duration ++ str "."))
      (constructVideoPrompt prompt style negativePrompt duration cameraMovement quality
        language framing persona loop aspectRatio fps motionIntensity audioMood) = true
    ∧ containsSeg
        (str "Aspect Ratio: The final video must be in "
          ++ (aspectRatioStr aspectRatio ++ str " format."))
        (constructVideoPrompt prompt style negativePrompt duration cameraMovement quality
          language framing persona loop aspectRatio fps motionIntensity audioMood) = true
    ∧ containsSeg
        (str "Frame Rate: The video must be rendered at "
          ++ (videoFPSStr fps ++ str " frames per second."))
        (constructVideoPrompt prompt style negativePrompt duration cameraMovement quality
          language framing persona loop aspectRatio fps motionIntensity audioMood) = true
    ∧ (cameraMovement ≠ CameraMovement.none →
      containsSeg
        (str "Camera Movement: A " ++ (motionIntensityMap motionIntensity ++ (str " "
          ++ (jsReplaceFirst (str "-") (str " ") (cameraMovementStr cameraMovement)
          ++ str "."))))
        (constructVideoPrompt prompt style negativePrompt duration cameraMovement quality
          language framing persona loop aspectRatio fps motionIntensity audioMood) = true)
    ∧ (videoCameraInstruction cameraMovement motionIntensity = []
        ↔ cameraMovement = CameraMovement.none)
    ∧ (framing ≠ VideoFraming.none →
      containsSeg
        (str "Shot Framing: Use a "
          ++ (jsReplaceFirst (str "-") (str " ") (videoFramingStr framing) ++ str "."))
        (constructVideoPrompt prompt style negativePrompt duration cameraMovement quality
          language framing persona loop aspectRatio fps motionIntensity audioMood) = true)
    ∧ (videoFramingInstruction framing = [] ↔ framing = VideoFraming.none)
    ∧ (style ≠ VideoStyle.none →
      containsSeg (str "Visual Style: " ++ (videoStyleStr style ++ str "."))
        (constructVideoPrompt prompt style negativePrompt duration cameraMovement quality
          language framing persona loop aspectRatio fps motionIntensity audioMood) = true)
    ∧ (videoStyleInstruction style = [] ↔ style = VideoStyle.none)
    ∧ (audioMood ≠ AudioMood.none →
      containsSeg
        (str "The overall mood of the scene should be appropriate for a soundtrack that is "
          ++ (jsReplaceFirst (str "-") (str " ") (audioMoodStr audioMood) ++ str "."))
        (constructVideoPrompt prompt style negativePrompt duration cameraMovement quality
          language framing persona loop aspectRatio fps motionIntensity audioMood) = true)
    ∧ (videoAudioInstruction audioMood = [] ↔ audioMood = AudioMood.none)
    ∧ (quality = VideoQuality.high →
      containsSeg
        (str "Output Quality: Aim for 8K resolution, ultra-high fidelity, with photorealistic rendering and professional color grading.")
        (constructVideoPrompt prompt style negativePrompt duration cameraMovement quality
          language framing persona loop aspectRatio fps motionIntensity audioMood) = true)
    ∧ (videoQualityInstruction quality ≠ [] ↔ quality = VideoQuality.high)
    ∧ (loop = true →
      containsSeg (str "The video must be a perfect, seamless loop.")
        (constructVideoPrompt prompt style negativePrompt duration cameraMovement quality
          language framing persona loop aspectRatio fps motionIntensity audioMood) = true)
    ∧ (videoLoopInstruction loop ≠ [] ↔ loop = true)
    ∧ (constructVideoPrompt prompt style negativePrompt duration cameraMovement quality
        language framing persona loop aspectRatio fps motionIntensity audioMood).all
        (fun c => !ws c || c = ' ') = true
    ∧ noDoubleSpace (constructVideoPrompt prompt style negativePrompt duration cameraMovement
        quality language framing persona loop aspectRatio fps motionIntensity audioMood) = true
    ∧ trim (constructVideoPrompt prompt style negativePrompt duration cameraMovement quality
        language framing persona loop aspectRatio fps motionIntensity audioMood)
      = constructVideoPrompt prompt style negativePrompt duration cameraMovement quality
        language framing persona loop aspectRatio fps motionIntensity audioMood := by
  refine ⟨?_, ?_, ?_, ?_, ?_, ?_, ?_, ?_, ?_, ?_, ?_, ?_, ?_, ?_, ?_, ?_, ?_, ?_⟩
  · -- duration instruction
    unfold constructVideoPrompt
    apply containsSeg_trimCollapse_of_split _ _
      (personaInstructions persona ++ str " create a video based on this scene: \"" ++ prompt
        ++ str "\". \n    " ++ videoLanguageInstruction language
        ++ str "\n    " ++ videoStyleInstruction style
        ++ str " \n    " ++ videoCameraInstruction cameraMovement motionIntensity
        ++ str "\n    " ++ videoFramingInstruction framing
        ++ str "\n    ")
      (str "\n    " ++ (videoQualityInstruction quality
        ++ (str "\n    " ++ (videoAspectInstruction aspectRatio
        ++ (str "\n    " ++ (videoFPSInstruction fps
        ++ (str "\n    " ++ (videoAudioInstruction audioMood
        ++ (str "\n    " ++ (videoNegativeInstruction negativePrompt
        ++ (str "\n    " ++ videoLoopInstruction loop)))))))))))
    · unfold videoPromptTemplate videoDurationInstruction
      simp only [List.append_assoc]
    · cases duration <;> decide
    · exact head_decomp_append _
        (head_nonws_decomp (str "Duration Goal: ") (by decide) (by decide))
    · exact endsNonWS_append _ _ (endsNonWS_append _ _ (by decide))
  · -- aspect-ratio instruction
    unfold constructVideoPrompt
    apply containsSeg_trimCollapse_of_split _ _
      (personaInstructions persona ++ str " create a video based on this scene: \"" ++ prompt
        ++ str "\". \n    " ++ videoLanguageInstruction language
        ++ str "\n    " ++ videoStyleInstruction style
        ++ str " \n    " ++ videoCameraInstruction cameraMovement motionIntensity
        ++ str "\n    " ++ videoFramingInstruction framing
        ++ str "\n    " ++ videoDurationInstruction duration
        ++ str "\n    " ++ videoQualityInstruction quality
        ++ str "\n    ")
      (str "\n    " ++ (videoFPSInstruction fps
        ++ (str "\n    " ++ (videoAudioInstruction audioMood
        ++ (str "\n    " ++ (videoNegativeInstruction negativePrompt
        ++ (str "\n    " ++ videoLoopInstruction loop)))))))
    · unfold videoPromptTemplate videoAspectInstruction
      simp only [List.append_assoc]
    · cases aspectRatio <;> decide
    · exact head_decomp_append _
        (head_nonws_decomp (str "Aspect Ratio: The final video must be in ")
          (by decide) (by decide))
    · exact endsNonWS_append _ _ (endsNonWS_append _ _ (by decide))
  · -- frame-rate instruction
    unfold constructVideoPrompt
    apply containsSeg_trimCollapse_of_split _ _
      (personaInstructions persona ++ str " create a video based on this scene: \"" ++ prompt
        ++ str "\". \n    " ++ videoLanguageInstruction language
        ++ str "\n    " ++ videoStyleInstruction style
        ++ str " \n    " ++ videoCameraInstruction cameraMovement motionIntensity
        ++ str "\n    " ++ videoFramingInstruction framing
        ++ str "\n    " ++ videoDurationInstruction duration
        ++ str "\n    " ++ videoQualityInstruction quality
        ++ str "\n    " ++ videoAspectInstruction aspectRatio
        ++ str "\n    ")
      (str "\n    " ++ (videoAudioInstruction audioMood
        ++ (str "\n    " ++ (videoNegativeInstruction negativePrompt
        ++ (str "\n    " ++ videoLoopInstruction loop)))))
    · unfold videoPromptTemplate videoFPSInstruction
      simp only [List.append_assoc]
    · cases fps <;> decide
    · exact head_decomp_append _
        (head_nonws_decomp (str "Frame Rate: The video must be rendered at ")
          (by decide) (by decide))
    · exact endsNonWS_append _ _ (endsNonWS_append _ _ (by decide))
  · -- camera instruction when the movement is not none
    intro hcam
    unfold constructVideoPrompt
    apply containsSeg_trimCollapse_of_split _ _
      (personaInstructions persona ++ str " create a video based on this scene: \"" ++ prompt
        ++ str "\". \n    " ++ videoLanguageInstruction language
        ++ str "\n    " ++ videoStyleInstruction style
        ++ str " \n    ")
      (str "\n    " ++ (videoFramingInstruction framing
        ++ (str "\n    " ++ (videoDurationInstruction duration
        ++ (str "\n    " ++ (videoQualityInstruction quality
        ++ (str "\n    " ++ (videoAspectInstruction aspectRatio
        ++ (str "\n    " ++ (videoFPSInstruction fps
        ++ (str "\n    " ++ (videoAudioInstruction audioMood
        ++ (str "\n    " ++ (videoNegativeInstruction negativePrompt
        ++ (str "\n    " ++ videoLoopInstruction loop)))))))))))))))
    · unfold videoPromptTemplate
      rw [show videoCameraInstruction cameraMovement motionIntensity
        = str "Camera Movement: A " ++ (motionIntensityMap motionIntensity ++ (str " "
          ++ (jsReplaceFirst (str "-") (str " ") (cameraMovementStr cameraMovement)
          ++ str "."))) by
        unfold videoCameraInstruction
        rw [if_pos hcam]
        simp only [List.append_assoc]]
      simp only [List.append_assoc]
    · revert hcam
      cases cameraMovement <;> intro hcam
      · exact absurd rfl hcam
      all_goals cases motionIntensity <;> decide
    · exact head_decomp_append _
        (head_nonws_decomp (str "Camera Movement: A ") (by decide) (by decide))
    · exact endsNonWS_append _ _ (endsNonWS_append _ _ (endsNonWS_append _ _
        (endsNonWS_append _ _ (by decide))))
  · -- the camera component is empty iff the movement is none
    constructor
    · intro h
      by_contra hcam
      revert h
      unfold videoCameraInstruction
      rw [if_pos hcam]
      exact append_left_ne_nil (append_left_ne_nil (append_left_ne_nil
        (append_left_ne_nil (by decide) _) _) _) _
    · intro h
      simp [videoCameraInstruction, h]
  · -- framing instruction when the framing is not none
    intro hfr
    unfold constructVideoPrompt
    apply containsSeg_trimCollapse_of_split _ _
      (personaInstructions persona ++ str " create a video based on this scene: \"" ++ prompt
        ++ str "\". \n    " ++ videoLanguageInstruction language
        ++ str "\n    " ++ videoStyleInstruction style
        ++ str " \n    " ++ videoCameraInstruction cameraMovement motionIntensity
        ++ str "\n    ")
      (str "\n    " ++ (videoDurationInstruction duration
        ++ (str "\n    " ++ (videoQualityInstruction quality
        ++ (str "\n    " ++ (videoAspectInstruction aspectRatio
        ++ (str "\n    " ++ (videoFPSInstruction fps
        ++ (str "\n    " ++ (videoAudioInstruction audioMood
        ++ (str "\n    " ++ (videoNegativeInstruction negativePrompt
        ++ (str "\n    " ++ videoLoopInstruction loop)))))))))))))
    · unfold videoPromptTemplate
      rw [show videoFramingInstruction framing
        = str "Shot Framing: Use a "
          ++ (jsReplaceFirst (str "-") (str " ") (videoFramingStr framing) ++ str ".") by
        unfold videoFramingInstruction
        rw [if_pos hfr]
        simp only [List.append_assoc]]
      simp only [List.append_assoc]
    · revert hfr
      cases framing <;> intro hfr
      · exact absurd rfl hfr
      all_goals decide
    · exact head_decomp_append _
        (head_nonws_decomp (str "Shot Framing: Use a ") (by decide) (by decide))
    · exact endsNonWS_append _ _ (endsNonWS_append _ _ (by decide))
  · -- the framing component is empty iff the framing is none
    constructor
    · intro h
      by_contra hfr
      revert h
      unfold videoFramingInstruction
      rw [if_pos hfr]
      exact append_left_ne_nil (append_left_ne_nil (by decide) _) _
    · intro h
      simp [videoFramingInstruction, h]
  · -- style instruction when the style is not none
    intro hst
    unfold constructVideoPrompt
    apply containsSeg_trimCollapse_of_split _ _
      (personaInstructions persona ++ str " create a video based on this scene: \"" ++ prompt
        ++ str "\". \n    " ++ videoLanguageInstruction language
        ++ str "\n    ")
      (str " \n    " ++ (videoCameraInstruction cameraMovement motionIntensity
        ++ (str "\n    " ++ (videoFramingInstruction framing
        ++ (str "\n    " ++ (videoDurationInstruction duration
        ++ (str "\n    " ++ (videoQualityInstruction quality
        ++ (str "\n    " ++ (videoAspectInstruction aspectRatio
        ++ (str "\n    " ++ (videoFPSInstruction fps
        ++ (str "\n    " ++ (videoAudioInstruction audioMood
        ++ (str "\n    " ++ (videoNegativeInstruction negativePrompt
        ++ (str "\n    " ++ videoLoopInstruction loop)))))))))))))))))
    · unfold videoPromptTemplate
      rw [show videoStyleInstruction style
        = str "Visual Style: " ++ (videoStyleStr style ++ str ".") by
        unfold videoStyleInstruction
        rw [if_pos hst]
        simp only [List.append_assoc]]
      simp only [List.append_assoc]
    · revert hst
      cases style <;> intro hst
      · exact absurd rfl hst
      all_goals decide
    · exact head_decomp_append _
        (head_nonws_decomp (str "Visual Style: ") (by decide) (by decide))
    · exact endsNonWS_append _ _ (endsNonWS_append _ _ (by decide))
  · -- the style component is empty iff the style is none
    constructor
    · intro h
      by_contra hst
      revert h
      unfold videoStyleInstruction
      rw [if_pos hst]
      exact append_left_ne_nil (append_left_ne_nil (by decide) _) _
    · intro h
      simp [videoStyleInstruction, h]
  · -- audio-mood instruction when the mood is not none
    intro hmood
    unfold constructVideoPrompt
    apply containsSeg_trimCollapse_of_split _ _
      (personaInstructions persona ++ str " create a video based on this scene: \"" ++ prompt
        ++ str "\". \n    " ++ videoLanguageInstruction language
        ++ str "\n    " ++ videoStyleInstruction style
        ++ str " \n    " ++ videoCameraInstruction cameraMovement motionIntensity
        ++ str "\n    " ++ videoFramingInstruction framing
        ++ str "\n    " ++ videoDurationInstruction duration
        ++ str "\n    " ++ videoQualityInstruction quality
        ++ str "\n    " ++ videoAspectInstruction aspectRatio
        ++ str "\n    " ++ videoFPSInstruction fps
        ++ str "\n    ")
      (str "\n    " ++ (videoNegativeInstruction negativePrompt
        ++ (str "\n    " ++ videoLoopInstruction loop)))
    · unfold videoPromptTemplate
      rw [show videoAudioInstruction audioMood
        = str "The overall mood of the scene should be appropriate for a soundtrack that is "
          ++ (jsReplaceFirst (str "-") (str " ") (audioMoodStr audioMood) ++ str ".") by
        unfold videoAudioInstruction
        rw [if_pos hmood]
        simp only [List.append_assoc]]
      simp only [List.append_assoc]
    · revert hmood
      cases audioMood <;> intro hmood
      · exact absurd rfl hmood
      all_goals decide
    · exact head_decomp_append _
        (head_nonws_decomp
          (str "The overall mood of the scene should be appropriate for a soundtrack that is ")
          (by decide) (by decide))
    · exact endsNonWS_append _ _ (endsNonWS_append _ _ (by decide))
  · -- the audio component is empty iff the mood is none
    constructor
    · intro h
      by_contra hmood
      revert h
      unfold videoAudioInstruction
      rw [if_pos hmood]
      exact append_left_ne_nil (append_left_ne_nil (by decide) _) _
    · intro h
      simp [videoAudioInstruction, h]
  · -- 8K quality sentence when the quality is high
    intro hq
    unfold constructVideoPrompt
    apply containsSeg_trimCollapse_of_split _ _
      (personaInstructions persona ++ str " create a video based on this scene: \"" ++ prompt
        ++ str "\". \n    " ++ videoLanguageInstruction language
        ++ str "\n    " ++ videoStyleInstruction style
        ++ str " \n    " ++ videoCameraInstruction cameraMovement motionIntensity
        ++ str "\n    " ++ videoFramingInstruction framing
        ++ str "\n    " ++ videoDurationInstruction duration
        ++ str "\n    ")
      (str "\n    " ++ (videoAspectInstruction aspectRatio
        ++ (str "\n    " ++ (videoFPSInstruction fps
        ++ (str "\n    " ++ (videoAudioInstruction audioMood
        ++ (str "\n    " ++ (videoNegativeInstruction negativePrompt
        ++ (str "\n    " ++ videoLoopInstruction loop)))))))))
    · unfold videoPromptTemplate
      rw [show videoQualityInstruction quality
        = str "Output Quality: Aim for 8K resolution, ultra-high fidelity, with photorealistic rendering and professional color grading." by
        unfold videoQualityInstruction
        rw [if_pos hq]]
      simp only [List.append_assoc]
    · decide
    · exact head_nonws_decomp _ (by decide) (by decide)
    · decide
  · -- the quality component is non-empty iff the quality is high
    constructor
    · intro h
      cases quality with
      | high => rfl
      | standard =>
        exact absurd (by simp [videoQualityInstruction]) h
    · intro h
      unfold videoQualityInstruction
      rw [if_pos h]
      decide
  · -- seamless-loop sentence when loop is set
    intro hl
    subst hl
    unfold constructVideoPrompt
    apply containsSeg_trimCollapse_of_split _ _
      (personaInstructions persona ++ str " create a video based on this scene: \"" ++ prompt
        ++ str "\". \n    " ++ videoLanguageInstruction language
        ++ str "\n    " ++ videoStyleInstruction style
        ++ str " \n    " ++ videoCameraInstruction cameraMovement motionIntensity
        ++ str "\n    " ++ videoFramingInstruction framing
        ++ str "\n    " ++ videoDurationInstruction duration
        ++ str "\n    " ++ videoQualityInstruction quality
        ++ str "\n    " ++ videoAspectInstruction aspectRatio
        ++ str "\n    " ++ videoFPSInstruction fps
        ++ str "\n    " ++ videoAudioInstruction audioMood
        ++ str "\n    " ++ videoNegativeInstruction negativePrompt
        ++ str "\n    ") []
    · unfold videoPromptTemplate videoLoopInstruction
      simp [List.append_assoc, List.append_nil]
    · decide
    · exact head_nonws_decomp _ (by decide) (by decide)
    · decide
  · -- the loop component is non-empty iff loop is set
    constructor
    · intro h
      cases loop with
      | true => rfl
      | false => exact absurd (by simp [videoLoopInstruction]) h
    · intro h
      subst h
      unfold videoLoopInstruction
      decide
  · -- only plain spaces remain as whitespace
    unfold constructVideoPrompt collapseWS
    exact all_trim _ (spaceOnly_collapseGo _ false)
  · -- no two adjacent spaces
    unfold constructVideoPrompt collapseWS
    exact noDoubleSpace_trim (noDoubleSpace_collapseGo _ false)
  · -- no leading or trailing whitespace
    unfold constructVideoPrompt
    exact trim_trim _

/-- Witness for C6: the camera instruction of a concrete video prompt. -/
theorem constructVideoPrompt_spec_witness :
    (CameraMovement.droneShot ≠ CameraMovement.none)
    ∧ containsSeg
      (str "Camera Movement: A " ++ (motionIntensityMap Intensity.balanced ++ (str " "
        ++ (jsReplaceFirst (str "-") (str " ") (cameraMovementStr CameraMovement.droneShot)
        ++ str "."))))
      (constructVideoPrompt (str "a chase") VideoStyle.cinematic (str "shaky")
        VideoDuration.short CameraMovement.droneShot VideoQuality.high Language.english
        VideoFraming.closeUp AIPersona.cinematographer true AspectRatio.r16x9 VideoFPS.f24
        Intensity.balanced AudioMood.cinematicTension) = true :=
  ⟨by decide,
    (constructVideoPrompt_spec (str "a chase") (str "shaky") VideoStyle.cinematic
      VideoDuration.short CameraMovement.droneShot VideoQuality.high Language.english
      VideoFraming.closeUp AIPersona.cinematographer true AspectRatio.r16x9 VideoFPS.f24
      Intensity.balanced AudioMood.cinematicTension).2.2.2.1 (by decide)⟩

/-- C8: `handlePremiumFeature` runs the wrapped action iff the current
tier's level is at least the required tier's level, and that level
comparison agrees with the ordering free < silver < golden < diamond;
otherwise the upgrade prompt is shown and the gated state is unchanged. -/
theorem handlePremiumFeature_spec {σ : Type} (subscriptionTier requiredTier : SubscriptionTier)
    (action : σ → σ) (st : σ) :
    (tierLevels requiredTier ≤ tierLevels subscriptionTier
      ↔ tierChainLe requiredTier subscriptionTier = true)
    ∧ (tierChainLe requiredTier subscriptionTier = true →
        handlePremiumFeature subscriptionTier requiredTier action st = (action st, false))
    ∧ (tierChainLe requiredTier subscriptionTier = false →
        handlePremiumFeature subscriptionTier requiredTier action st = (st, true)) := by
  refine ⟨?_, ?_, ?_⟩
  · cases subscriptionTier <;> cases requiredTier <;> decide
  · intro h
    revert h
    cases subscriptionTier <;> cases requiredTier <;> intro h <;>
      first
        | exact absurd h (by decide)
        | (unfold handlePremiumFeature; rw [if_neg (by decide)])
  · intro h
    revert h
    cases subscriptionTier <;> cases requiredTier <;> intro h <;>
      first
        | exact absurd h (by decide)
        | (unfold handlePremiumFeature; rw [if_pos (by decide)])

/-- Witness for C8: a silver user requesting a golden feature is prompted
to upgrade and the gated state is unchanged. -/
theorem handlePremiumFeature_spec_witness :
    handlePremiumFeature (σ := Nat) SubscriptionTier.silver SubscriptionTier.golden
      Nat.succ 0 = (0, true) :=
  (handlePremiumFeature_spec SubscriptionTier.silver SubscriptionTier.golden
    Nat.succ 0).2.2 (by decide)

/-- C9: `addPromptToHistory` leaves the history unchanged when the prompt
trims to empty; otherwise the new history is the prompt followed by the old
history with every copy of the prompt removed, truncated to at most 10
entries, so its length never exceeds 10, its first element is the prompt,
and the prompt occurs exactly once. -/
theorem addPromptToHistory_spec (prompt : JStr) (history : List JStr) :
    (trim prompt = [] → addPromptToHistory prompt history = history)
    ∧ (trim prompt ≠ [] →
      addPromptToHistory prompt history
        = (prompt :: history.filter (fun p => p != prompt)).take 10
      ∧ (addPromptToHistory prompt history).length ≤ 10
      ∧ (addPromptToHistory prompt history).head? = some prompt
      ∧ (addPromptToHistory prompt history).count prompt = 1) := by
  constructor
  · intro h
    simp [addPromptToHistory, h]
  · intro hne
    have hd : addPromptToHistory prompt history
        = (prompt :: history.filter (fun p => p != prompt)).take 10 := by
      unfold addPromptToHistory
      rw [if_neg hne]
    have htake : (prompt :: history.filter (fun p => p != prompt)).take 10
        = prompt :: (history.filter (fun p => p != prompt)).take 9 := by
      rw [show (10 : Nat) = 9 + 1 from rfl, List.take_succ_cons]
    have hnotmem : prompt ∉ (history.filter (fun p => p != prompt)).take 9 := by
      intro hmem
      have hmem2 : prompt ∈ history.filter (fun p => p != prompt) :=
        (List.take_sublist 9 _).subset hmem
      have := List.of_mem_filter hmem2
      simp at this
    refine ⟨hd, ?_, ?_, ?_⟩
    · rw [hd]
      simp [List.length_take]
    · rw [hd, htake]
      rfl
    · rw [hd, htake, List.count_cons_self, List.count_eq_zero.mpr hnotmem]

/-- Witness for C9 at a concrete prompt and history. -/
theorem addPromptToHistory_spec_witness :
    (addPromptToHistory (str "hello") [str "a", str "hello", str "b"]).count (str "hello")
      = 1 :=
  ((addPromptToHistory_spec (str "hello") [str "a", str "hello", str "b"]).2
    (by decide)).2.2.2

/-- C10: `Library.handleDelete` removes exactly the items whose id equals
the given id, keeps every other item with its multiplicity and relative
order, and leaves the list unchanged when no item has that id. -/
theorem handleDelete_spec (itemId : JStr) (items : List LibraryItem) :
    handleDelete itemId items = items.filter (fun item => item.id != itemId)
    ∧ (∀ item ∈ handleDelete itemId items, item.id ≠ itemId)
    ∧ List.Sublist (handleDelete itemId items) items
    ∧ (∀ item ∈ items, item.id ≠ itemId → item ∈ handleDelete itemId items)
    ∧ (∀ item : LibraryItem, item.id ≠ itemId →
        (handleDelete itemId items).count item = items.count item)
    ∧ ((∀ item ∈ items, item.id ≠ itemId) → handleDelete itemId items = items) := by
  refine ⟨rfl, ?_, ?_, ?_, ?_, ?_⟩
  · intro item hm
    have := List.of_mem_filter hm
    simpa using this
  · exact List.filter_sublist items
  · intro item hm hne
    exact List.mem_filter.mpr ⟨hm, by simpa using hne⟩
  · intro item hne
    exact List.count_filter (by simpa using hne)
  · intro h
    unfold handleDelete
    rw [List.filter_eq_self.mpr]
    intro item hm
    simpa using h item hm

/-- Witness for C10: deleting an id that is absent leaves a concrete
library unchanged. -/
theorem handleDelete_spec_witness :
    handleDelete (str "zzz")
      [{ id := str "item-1", type := MediaType.image, src := str "s",
         settings := { prompts := [str "p"] }, createdAt := str "t" }]
      = [{ id := str "item-1", type := MediaType.image, src := str "s",
           settings := { prompts := [str "p"] }, createdAt := str "t" }] :=
  (handleDelete_spec (str "zzz")
    [{ id := str "item-1", type := MediaType.image, src := str "s",
       settings := { prompts := [str "p"] }, createdAt := str "t" }]).2.2.2.2.2
    (by decide)

theorem append_right_ne_nil (a : JStr) {b : JStr} (h : b ≠ []) : a ++ b ≠ [] := by
  intro hc
  exact h (List.append_eq_nil.mp hc).2

theorem toISOString_ne_nil (ms : Nat) : toISOString ms ≠ [] := by
  unfold toISOString
  exact append_right_ne_nil _ (by decide)

theorem itemWF_of_applyLibOp (start : List LibraryItem) (op : LibOp)
    (h : ∀ i ∈ start, itemWF i) : ∀ i ∈ applyLibOp start op, itemWF i := by
  cases op with
  | save payload nowMillis =>
    intro i hi
    rcases List.mem_cons.mp hi with h1 | h2
    · subst h1
      refine ⟨append_left_ne_nil (by decide) _, toISOString_ne_nil nowMillis, ?_⟩
      cases payload.type
      · exact Or.inl rfl
      · exact Or.inr rfl
    · exact h i h2
  | del itemId =>
    intro i hi
    exact h i ((List.filter_sublist start).subset hi)
  | clear =>
    intro i hi
    simp [applyLibOp, handleClearLibrary] at hi

theorem foldl_itemWF (ops : List LibOp) :
    ∀ (start : List LibraryItem), (∀ i ∈ start, itemWF i) →
      ∀ i ∈ ops.foldl applyLibOp start, itemWF i := by
  induction ops with
  | nil =>
    intro start h
    exact fun i hi => h i hi
  | cons op ops ih =>
    intro start h
    exact ih (applyLibOp start op) (itemWF_of_applyLibOp start op h)

/-- C7: starting from the empty library, after any sequence of save, delete
and clear operations every item has its required fields: a non-empty id and
createdAt assigned at insertion time, a type from the IMAGE/VIDEO union,
and (by construction of the record type) a src and a settings record with a
prompts array. -/
theorem runLibOps_itemWF (ops : List LibOp) : ∀ item ∈ runLibOps ops, itemWF item :=
  foldl_itemWF ops [] (by simp)

/-- Witness for C7: the item saved by a concrete operation sequence is
well-formed. -/
theorem runLibOps_itemWF_witness :
    itemWF { id := str "item-" ++ natDigits 7, type := MediaType.video,
             src := str "blob:v", settings := { prompts := [str "p"] },
             createdAt := toISOString 7 } :=
  runLibOps_itemWF
    [LibOp.save { type := MediaType.image, src := str "i",
                  settings := { prompts := [str "q"] } } 3,
     LibOp.clear,
     LibOp.save { type := MediaType.video, src := str "blob:v",
                  settings := { prompts := [str "p"] } } 7,
     LibOp.del (str "absent")]
    { id := str "item-" ++ natDigits 7, type := MediaType.video,
      src := str "blob:v", settings := { prompts := [str "p"] },
      createdAt := toISOString 7 }
    (by decide)

/-- C5: the subscription tier round-trips through local persistence: saving
any whitelisted tier and loading it back restores exactly that tier, and a
stored value that does not parse to a whitelisted tier name leaves the tier
at its initial value free. -/
theorem tierPersistence_spec :
    (∀ t : SubscriptionTier,
      loadStoredTier (some (saveTierValue t)) SubscriptionTier.free = t)
    ∧ (∀ s : JStr,
      (∀ t : SubscriptionTier, jsonParseString s ≠ some (tierStr t)) →
      loadStoredTier (some s) SubscriptionTier.free = SubscriptionTier.free)
    ∧ (∀ (s : JStr) (t : SubscriptionTier),
      jsonParseString s = some (tierStr t) →
      loadStoredTier (some s) SubscriptionTier.free = t) := by
  refine ⟨?_, ?_, ?_⟩
  · intro t
    cases t <;> decide
  · intro s h
    show loadStoredTier (some s) SubscriptionTier.free = SubscriptionTier.free
    rw [show loadStoredTier (some s) SubscriptionTier.free
      = (if s = [] then SubscriptionTier.free
         else
           match jsonParseString s with
           | Option.none => SubscriptionTier.free
           | some v =>
             if v = str "free" then SubscriptionTier.free
             else if v = str "silver" then SubscriptionTier.silver
             else if v = str "golden" then SubscriptionTier.golden
             else if v = str "diamond" then SubscriptionTier.diamond
             else SubscriptionTier.free) from rfl]
    by_cases hs : s = []
    · rw [if_pos hs]
    · rw [if_neg hs]
      cases hp : jsonParseString s with
      | none => rfl
      | some v =>
        have hfree : v ≠ str "free" := fun he =>
          h SubscriptionTier.free (by rw [hp, he]; rfl)
        have hsilver : v ≠ str "silver" := fun he =>
          h SubscriptionTier.silver (by rw [hp, he]; rfl)
        have hgolden : v ≠ str "golden" := fun he =>
          h SubscriptionTier.golden (by rw [hp, he]; rfl)
        have hdiamond : v ≠ str "diamond" := fun he =>
          h SubscriptionTier.diamond (by rw [hp, he]; rfl)
        show (if v = str "free" then SubscriptionTier.free
          else if v = str "silver" then SubscriptionTier.silver
          else if v = str "golden" then SubscriptionTier.golden
          else if v = str "diamond" then SubscriptionTier.diamond
          else SubscriptionTier.free) = SubscriptionTier.free
        rw [if_neg hfree, if_neg hsilver, if_neg hgolden, if_neg hdiamond]
  · intro s t h
    show loadStoredTier (some s) SubscriptionTier.free = t
    rw [show loadStoredTier (some s) SubscriptionTier.free
      = (if s = [] then SubscriptionTier.free
         else
           match jsonParseString s with
           | Option.none => SubscriptionTier.free
           | some v =>
             if v = str "free" then SubscriptionTier.free
             else if v = str "silver" then SubscriptionTier.silver
             else if v = str "golden" then SubscriptionTier.golden
             else if v = str "diamond" then SubscriptionTier.diamond
             else SubscriptionTier.free) from rfl]
    by_cases hs : s = []
    · subst hs
      rw [if_pos rfl]
      cases t <;> exact absurd h (by decide)
    · rw [if_neg hs, h]
      show (if tierStr t = str "free" then SubscriptionTier.free
        else if tierStr t = str "silver" then SubscriptionTier.silver
        else if tierStr t = str "golden" then SubscriptionTier.golden
        else if tierStr t = str "diamond" then SubscriptionTier.diamond
        else SubscriptionTier.free) = t
      cases t <;> decide

/-- Witness for C5: a golden tier round-trips, a non-whitelisted stored
value loads as free, and a whitespace-wrapped whitelisted encoding loads as
its tier. -/
theorem tierPersistence_spec_witness :
    loadStoredTier (some (saveTierValue SubscriptionTier.golden)) SubscriptionTier.free
      = SubscriptionTier.golden
    ∧ loadStoredTier (some (str "\"gold\"")) SubscriptionTier.free
      = SubscriptionTier.free
    ∧ loadStoredTier (some (str " \"silver\"")) SubscriptionTier.free
      = SubscriptionTier.silver :=
  ⟨tierPersistence_spec.1 SubscriptionTier.golden,
    tierPersistence_spec.2.1 (str "\"gold\"") (by intro t; cases t <;> decide),
    tierPersistence_spec.2.2 (str " \"silver\"") SubscriptionTier.silver (by decide)⟩

theorem opSeq_shift (op : VideosOperation) (polls : Nat → VideosOperation) (j : Nat) :
    opSeq (polls 0) (fun n => polls (n + 1)) j = opSeq op polls (j + 1) := by
  cases j <;> rfl

theorem pollUntilDone_first (k : Nat) :
    ∀ (op : VideosOperation) (polls : Nat → VideosOperation) (fuel : Nat),
      (opSeq op polls k).done = true →
      (∀ j, j < k → (opSeq op polls j).done = false) →
      k ≤ fuel →
      pollUntilDone op polls fuel = some (opSeq op polls k) := by
  induction k with
  | zero =>
    intro op polls fuel hk _ _
    have h0 : op.done = true := hk
    cases fuel <;> simp [pollUntilDone, opSeq, h0]
  | succ k ih =>
    intro op polls fuel hk hmin hfuel
    have h0 : op.done = false := hmin 0 (Nat.succ_pos k)
    cases fuel with
    | zero => omega
    | succ fuel =>
      rw [show pollUntilDone op polls (fuel + 1)
          = if op.done then some op
            else pollUntilDone (polls 0) (fun n => polls (n + 1)) fuel from rfl,
        h0]
      simp only [Bool.false_eq_true, if_false]
      rw [show opSeq op polls (k + 1)
          = opSeq (polls 0) (fun n => polls (n + 1)) k from (opSeq_shift op polls k).symm]
      exact ih (polls 0) (fun n => polls (n + 1)) fuel
        (by rw [opSeq_shift]; exact hk)
        (fun j hj => by rw [opSeq_shift]; exact hmin (j + 1) (Nat.succ_lt_succ hj))
        (Nat.le_of_succ_le_succ hfuel)

/-- C2: the fixed-interval poll loop stops at the first response whose
`done` flag is set; the function then returns the object URL of the
downloaded video when that response carries a truthy download link and the
download succeeds, and throws the no-valid-link error when the completed
operation carries no download URI. -/
theorem generateVideoInternal_spec (initialOp : VideosOperation)
    (polls : Nat → VideosOperation) (fetchOk : JStr → Bool)
    (createObjectURL : JStr → JStr) (k fuel : Nat)
    (hk : (opSeq initialOp polls k).done = true)
    (hmin : ∀ j, j < k → (opSeq initialOp polls j).done = false)
    (hfuel : k ≤ fuel) :
    pollUntilDone initialOp polls fuel = some (opSeq initialOp polls k)
    ∧ (∀ u, operationDownloadLink (opSeq initialOp polls k) = some u → u ≠ [] →
        fetchOk u = true →
        generateVideoInternal initialOp polls fetchOk createObjectURL fuel
          = some (Except.ok (createObjectURL u)))
    ∧ (operationDownloadLink (opSeq initialOp polls k) = Option.none →
        generateVideoInternal initialOp polls fetchOk createObjectURL fuel
          = some (Except.error videoErrMsg))
    ∧ pollIntervalMs = 10000 := by
  have hpoll := pollUntilDone_first k initialOp polls fuel hk hmin hfuel
  refine ⟨hpoll, ?_, ?_, rfl⟩
  · intro u hu hne hfok
    unfold generateVideoInternal
    rw [hpoll]
    show (match operationDownloadLink (opSeq initialOp polls k) with
      | Option.none => some (Except.error videoErrMsg)
      | some downloadLink =>
        if downloadLink = [] then some (Except.error videoErrMsg)
        else if fetchOk downloadLink then some (Except.ok (createObjectURL downloadLink))
        else some (Except.error downloadErrMsg))
      = some (Except.ok (createObjectURL u))
    rw [hu]
    show (if u = [] then some (Except.error videoErrMsg)
      else if fetchOk u then some (Except.ok (createObjectURL u))
      else some (Except.error downloadErrMsg))
      = some (Except.ok (createObjectURL u))
    rw [if_neg hne, if_pos hfok]
  · intro hnone
    unfold generateVideoInternal
    rw [hpoll]
    show (match operationDownloadLink (opSeq initialOp polls k) with
      | Option.none => some (Except.error videoErrMsg)
      | some downloadLink =>
        if downloadLink = [] then some (Except.error videoErrMsg)
        else if fetchOk downloadLink then some (Except.ok (createObjectURL downloadLink))
        else some (Except.error downloadErrMsg))
      = some (Except.error videoErrMsg)
    rw [hnone]

/-- Witness for C2: a concrete response sequence that completes on the
second poll with a valid link. -/
theorem generateVideoInternal_spec_witness :
    generateVideoInternal demoOpPending demoPolls (fun _ => true)
      (fun u => str "blob:" ++ u) 5
      = some (Except.ok (str "blob:" ++ str "http://v")) :=
  (generateVideoInternal_spec demoOpPending demoPolls (fun _ => true)
    (fun u => str "blob:" ++ u) 2 5
    (by decide) (by decide) (by decide)).2.1 (str "http://v") (by decide)
    (by decide) rfl

/-- C3: in `handleSubmit` the soundtrack request is consulted iff the audio
mood is not `none` (otherwise a null result is used and the outcome is
independent of the soundtrack oracle); the two requests are awaited together
through `Promise.all`, whose first rejection's message is stored in the
error state and raised as an error toast; and only the first video request
matters — no second attempt is made. -/
theorem handleSubmit_concurrency_spec (f : FormState)
    (videoAttempts : Nat → Except JStr JStr)
    (audioOracle audioOracle2 : Except JStr (Option JStr))
    (first : FirstSettled) (nowMillis : Nat) (st : SubmitState)
    (hp : ¬ f.prompt = [])
    (hg : ¬ (f.mode = VideoToolMode.imageToVideo ∧ f.imageFile = false)) :
    (f.audioMood = AudioMood.none →
      handleSubmit f videoAttempts audioOracle first nowMillis st
        = handleSubmit f videoAttempts audioOracle2 first nowMillis st)
    ∧ (f.audioMood = AudioMood.none →
      (handleSubmit f videoAttempts audioOracle first nowMillis st).generatedAudio
        = Option.none)
    ∧ (∀ e, promiseAllPair (videoAttempts 0)
        (if f.audioMood ≠ AudioMood.none then audioOracle else Except.ok Option.none) first
        = Except.error e →
      (handleSubmit f videoAttempts audioOracle first nowMillis st).error = some e
      ∧ (handleSubmit f videoAttempts audioOracle first nowMillis st).toasts
        = st.toasts ++ [(e, ToastType.error)]
      ∧ (handleSubmit f videoAttempts audioOracle first nowMillis st).isLoading = false)
    ∧ (∀ ev ea, videoAttempts 0 = Except.error ev → f.audioMood ≠ AudioMood.none →
      audioOracle = Except.error ea →
      (handleSubmit f videoAttempts audioOracle first nowMillis st).error
        = some (match first with
          | FirstSettled.video => ev
          | FirstSettled.audio => ea))
    ∧ (∀ g : Nat → Except JStr JStr, g 0 = videoAttempts 0 →
      handleSubmit f g audioOracle first nowMillis st
        = handleSubmit f videoAttempts audioOracle first nowMillis st) := by
  refine ⟨?_, ?_, ?_, ?_, ?_⟩
  · intro hmood
    simp [handleSubmit, hp, hg, hmood]
  · intro hmood
    simp only [handleSubmit, if_neg hp, if_neg hg, hmood]
    cases hv : videoAttempts 0 with
    | ok x => simp [promiseAllPair]
    | error e => simp [promiseAllPair]
  · intro e he
    simp only [handleSubmit, if_neg hp, if_neg hg]
    rw [he]
    exact ⟨rfl, rfl, rfl⟩
  · intro ev ea hv hmood hao
    simp only [handleSubmit, if_neg hp, if_neg hg, if_pos hmood]
    rw [hv, hao]
    rfl
  · intro g hg0
    simp only [handleSubmit, hg0]

/-- Witness for C3: with the audio mood `none`, two different soundtrack
oracles give the same outcome. -/
theorem handleSubmit_concurrency_spec_witness :
    handleSubmit demoForm (fun _ => Except.ok (str "blob:v"))
      (Except.error (str "boom")) FirstSettled.video 5 demoState
      = handleSubmit demoForm (fun _ => Except.ok (str "blob:v"))
        (Except.ok (some (str "x"))) FirstSettled.video 5 demoState :=
  (handleSubmit_concurrency_spec demoForm (fun _ => Except.ok (str "blob:v"))
    (Except.error (str "boom")) (Except.ok (some (str "x"))) FirstSettled.video 5
    demoState (by decide) (by decide)).1 rfl

/-- C4: when the awaited video generation rejects, `handleSubmit` catches
the error and surfaces it as an error toast, performs no retry, adds
nothing to the library (the list is exactly what it was), leaves no
generated video, and resets the loading flag. -/
theorem handleSubmit_videoFailure_spec (f : FormState)
    (videoAttempts : Nat → Except JStr JStr) (audioOracle : Except JStr (Option JStr))
    (first : FirstSettled) (nowMillis : Nat) (st : SubmitState) (e : JStr)
    (hp : ¬ f.prompt = [])
    (hg : ¬ (f.mode = VideoToolMode.imageToVideo ∧ f.imageFile = false))
    (hv : videoAttempts 0 = Except.error e) :
    (handleSubmit f videoAttempts audioOracle first nowMillis st).libraryItems
      = st.libraryItems
    ∧ (handleSubmit f videoAttempts audioOracle first nowMillis st).isLoading = false
    ∧ (handleSubmit f videoAttempts audioOracle first nowMillis st).generatedVideo
      = Option.none
    ∧ ∃ m, (handleSubmit f videoAttempts audioOracle first nowMillis st).error = some m
      ∧ (handleSubmit f videoAttempts audioOracle first nowMillis st).toasts
        = st.toasts ++ [(m, ToastType.error)]
      ∧ ((first = FirstSettled.video
          ∨ ∀ ea, (if f.audioMood ≠ AudioMood.none then audioOracle
              else Except.ok Option.none) ≠ Except.error ea) →
        m = e) := by
  simp only [handleSubmit, if_neg hp, if_neg hg]
  rw [hv]
  cases haud : (if f.audioMood ≠ AudioMood.none then audioOracle
      else Except.ok Option.none) with
  | ok a =>
    exact ⟨rfl, rfl, rfl, e, rfl, rfl, fun _ => rfl⟩
  | error ea =>
    refine ⟨rfl, rfl, rfl,
      (match first with
        | FirstSettled.video => e
        | FirstSettled.audio => ea), rfl, rfl, ?_⟩
    intro hcase
    cases first with
    | video => rfl
    | audio =>
      rcases hcase with habs | hall
      · exact absurd habs (by simp)
      · exact absurd rfl (hall ea)

/-- Witness for C4: a failing video request on a concrete submission leaves
the library exactly as it was. -/
theorem handleSubmit_videoFailure_spec_witness :
    (handleSubmit demoForm (fun _ => Except.error (str "it broke"))
      (Except.ok Option.none) FirstSettled.video 5 demoState).libraryItems
      = demoState.libraryItems :=
  (handleSubmit_videoFailure_spec demoForm (fun _ => Except.error (str "it broke"))
    (Except.ok Option.none) FirstSettled.video 5 demoState (str "it broke")
    (by decide) (by decide) rfl).1

end Viveno
